import Mathlib

/-! # LegalKit web client (`LegalKit/app.js`): request building, validation, results view

A shallow embedding of the client-side logic of `class LegalKitApp`:
`getFormConfig`, `validateConfig`, `loadRecentTasks`, `groupMetricKeys`,
`getScoreClass` and the translation lookup `t`.

Conventions of the embedding.
* A JavaScript string is a Lean `String`; prefix tests and trimming work on its characters.
* A JavaScript number is a `JSNum`: a finite value (kept exactly, as a rational), the two
  infinities, or NaN. Only comparisons and truthiness are used, both exact on doubles.
* A plain object whose keys are data (a result record) is the list of its own enumerable
  properties in `Object.entries` order; an object with a fixed set of keys (the request)
  is a structure of `Option` fields, `none` standing for an absent key.
* Host built-ins that are not part of the repository (`parseInt`, `parseFloat`,
  `new Date(..)`) are parameters.
-/

namespace LegalKit

/-! ## JavaScript values -/

/-- A JavaScript number: finite (exact value), `Infinity`, `-Infinity` or `NaN`. -/
inductive JSNum where
  | fin (q : ℚ)
  | posInf
  | negInf
  | nan
deriving DecidableEq

namespace JSNum

/-- The abstract relational comparison `a < b` of ECMAScript on numbers;
`none` is the `undefined` outcome, produced when an operand is `NaN`. -/
def lt? : JSNum → JSNum → Option Bool
  | nan, _ => none
  | _, nan => none
  | fin a, fin b => some (decide (a < b))
  | fin _, posInf => some true
  | fin _, negInf => some false
  | posInf, _ => some false
  | negInf, negInf => some false
  | negInf, _ => some true

/-- The operator `a < b`: `undefined` counts as `false`. -/
def lt (a b : JSNum) : Bool :=
  match lt? a b with
  | some r => r
  | none => false

/-- The operator `a >= b`: computed as `a < b`, then `false` when that is `true`
or `undefined`, `true` otherwise. -/
def ge (a b : JSNum) : Bool :=
  match lt? a b with
  | some r => !r
  | none => false

/-- The global `isNaN` on a number. -/
def isNaN : JSNum → Bool
  | nan => true
  | _ => false

/-- Truthiness of a number: `0` (and `-0`) and `NaN` are falsy. -/
def truthy : JSNum → Bool
  | fin q => decide (q ≠ 0)
  | posInf => true
  | negInf => true
  | nan => false

end JSNum

/-- The method `s.startsWith(p)`. -/
def startsWith (s p : String) : Bool :=
  p.toList.isPrefixOf s.toList

/-- White space and line terminators of ECMAScript, the characters `trim` strips. -/
def isJSWhiteSpace (c : Char) : Bool :=
  let n := c.toNat
  n == 0x09 || n == 0x0A || n == 0x0B || n == 0x0C || n == 0x0D || n == 0x20 ||
  n == 0xA0 || n == 0x1680 || (0x2000 ≤ n && n ≤ 0x200A) || n == 0x2028 ||
  n == 0x2029 || n == 0x202F || n == 0x205F || n == 0x3000 || n == 0xFEFF

/-- The characters of `s.trim()`. -/
def trimChars (l : List Char) : List Char :=
  ((l.dropWhile isJSWhiteSpace).reverse.dropWhile isJSWhiteSpace).reverse

/-- The method `s.trim()`. -/
def jsTrim (s : String) : String :=
  String.mk (trimChars s.toList)

/-- Truthiness of a string-valued property that may be absent:
`undefined` and the empty string are falsy. -/
def strTruthy : Option String → Bool
  | none => false
  | some s => decide (s ≠ "")

/-- The call `s.split(sep)` for a one-character separator, on characters; `cur` is the piece
being read, reversed. -/
def splitCharAux (sep : Char) : List Char → List Char → List (List Char)
  | cur, [] => [cur.reverse]
  | cur, c :: cs =>
    if c = sep then cur.reverse :: splitCharAux sep [] cs
    else splitCharAux sep (c :: cur) cs

/-- The call `s.split(',')`. -/
def splitComma (s : String) : List String :=
  (splitCharAux ',' [] s.toList).map String.mk

/-- The call `s.split(/\n+/)` on characters: every maximal run of newlines is one separator.
`cur` is the piece being read, reversed; `inRun` tells that the previous character
was a newline. -/
def splitNewlinesAux : List Char → Bool → List Char → List (List Char)
  | cur, _, [] => [cur.reverse]
  | cur, inRun, c :: cs =>
    if c = '\n' then
      if inRun then splitNewlinesAux [] true cs
      else cur.reverse :: splitNewlinesAux [] true cs
    else splitNewlinesAux (c :: cur) false cs

/-- The call `s.split(/\n+/)`. -/
def splitNewlines (s : String) : List String :=
  (splitNewlinesAux [] false s.toList).map String.mk

/-! ## Translations -/

/-- The `en` table of `I18N` (app.js, `const I18N`), in source order. -/
def I18N_en : List (String × String) :=
  [("title", "LegalKit: Legal Model Evaluation Toolkit"),
   ("brand", "LegalKit: Legal Model Evaluation Toolkit"),
   ("nav_dashboard", "Evaluation"),
   ("nav_results", "Results"),
   ("nav_system", "System"),
   ("tab_eval_config", "Evaluation Config"),
   ("tab_results_mgmt", "Results Management"),
   ("tab_system_status", "System Status"),
   ("settings_title", "Task Settings"),
   ("system_title", "System Status"),
   ("recent_title", "Recent Tasks"),
   ("tasks_title", "Tasks"),
   ("refresh", "Refresh"),
   ("gpu_title", "GPU Info"),
   ("datasets_title", "Supported Datasets"),
   ("backends_title", "Supported Backends"),
   ("start_eval", "Start Evaluation"),
   ("model", "Model"),
   ("action", "Action"),
   ("modal_task_detail", "Task Detail"),
   ("modal_results", "Evaluation Results"),
   ("section_retrieval_title", "Retrieval Configuration"),
   ("switch_retrieval_enable", "Enable retrieval stage before generation"),
   ("label_retrieval_method", "Retrieval method"),
   ("label_retrieval_k", "Top-k"),
   ("label_faiss_type", "FAISS index"),
   ("label_embed_model_name", "Embedding model"),
   ("label_embed_api_url", "Embedding API URL"),
   ("label_embed_api_key", "Embedding API Key"),
   ("label_embed_batch_size", "Embedding batch size"),
   ("hint_retrieval_scope", "Applies to datasets that implement a retrieval stage (e.g., LexRAG). Artifacts are saved under run_output."),
   ("section_model_config_title", "Model Configuration"),
   ("label_model_type", "Model Type"),
   ("opt_model_local", "Local model"),
   ("opt_model_hf", "HuggingFace"),
   ("opt_model_api", "API model"),
   ("label_model_path", "Model path/name"),
   ("ph_model_path", "Enter model path or name"),
   ("label_dataset_select", "Dataset Selection"),
   ("label_dataset_list", "Datasets"),
   ("hint_multi_select", "Hold Ctrl to multi-select"),
   ("label_subtasks", "Subtasks (optional)"),
   ("ph_subtasks", "e.g.: 2-1,2-2"),
   ("hint_subtasks", "Separate multiple subtasks with commas"),
   ("section_run_config_title", "Run Configuration"),
   ("label_task_type", "Task Type"),
   ("opt_task_all", "Full pipeline"),
   ("opt_task_infer", "Inference only"),
   ("opt_task_eval", "Evaluation only"),
   ("label_accelerator", "Accelerator"),
   ("opt_acc_none", "None"),
   ("label_num_workers", "Worker processes"),
   ("label_tensor_parallel", "Tensor parallelism"),
   ("label_batch_size", "Batch size"),
   ("section_generation_params_title", "Generation Parameters"),
   ("label_temperature", "Temperature"),
   ("label_top_p", "Top-p"),
   ("label_max_tokens", "Max tokens"),
   ("label_repetition_penalty", "Repetition penalty"),
   ("section_json_eval_title", "JSON offline evaluation (optional)"),
   ("switch_json_eval", "Enable evaluation of JSON prediction files (skip inference)"),
   ("label_json_paths", "JSON file paths (use dataset=path per line)"),
   ("ph_json_paths", "CaseGen=/path/to/casegen_preds.json"),
   ("label_json_model_label", "Evaluation model label"),
   ("ph_json_model_label", "json_eval"),
   ("label_override_task_type", "Override task type"),
   ("override_eval_value", "Auto-set to eval"),
   ("hint_json_models", "If models are not specified, a placeholder model json::label will be injected"),
   ("section_judge_title", "LLM Judge configuration (optional)"),
   ("switch_judge_enable", "Use LLM as judge"),
   ("label_judge_model_spec", "Judge model spec"),
   ("ph_judge_model_spec", "hf:Qwen/Qwen2.5-7B"),
   ("label_judge_batch", "Batch"),
   ("label_judge_tp", "Tensor parallelism"),
   ("label_judge_temperature", "Temperature"),
   ("label_judge_top_p", "Top-p"),
   ("label_judge_max_tokens", "MaxTokens"),
   ("label_judge_rep_penalty", "Repetition penalty"),
   ("label_judge_accelerator", "Judge accelerator"),
   ("opt_judge_none", "None"),
   ("label_judge_api_mode", "API mode (optional)"),
   ("ph_judge_api_url", "https://api.example.com/v1/chat"),
   ("ph_judge_api_key", "judge-api-key"),
   ("hint_judge_decoupled", "The judge model is decoupled from the main model and used only during evaluation."),
   ("loading", "Loading..."),
   ("no_tasks", "No tasks"),
   ("no_eval_tasks", "No evaluation tasks"),
   ("no_gpu", "No GPU detected"),
   ("discovered_models", "Discovered models:"),
   ("no_valid_models", "No valid models found"),
   ("status_pending", "Pending"),
   ("status_running", "Running"),
   ("status_completed", "Completed"),
   ("status_failed", "Failed"),
   ("metric_gpu_available", "GPUs"),
   ("metric_datasets", "Datasets"),
   ("metric_accelerators", "Accelerators"),
   ("metric_task_types", "Task types"),
   ("metric_subtasks", "Subtasks"),
   ("no_backends", "No accelerators configured"),
   ("err_init", "Failed to load initial data: "),
   ("err_load_datasets", "Failed to load datasets"),
   ("err_load_system", "Failed to load system info"),
   ("err_load_tasks", "Failed to load tasks list"),
   ("err_input_model_path", "Please input model path"),
   ("err_model_discovery_failed", "Model discovery failed"),
   ("err_task_submit_failed", "Task submission failed"),
   ("err_get_task_detail", "Failed to get task detail"),
   ("err_get_results", "Failed to get results"),
   ("submit_success_prefix", "Task submitted! ID: "),
   ("validate_need_model", "Please specify at least one model"),
   ("validate_need_dataset", "Please select at least one dataset"),
   ("validate_need_api", "API model requires API URL and API Key"),
   ("validate_need_json_paths", "JSON evaluation needs json_paths"),
   ("validate_json_task_eval", "Task must be eval in JSON mode"),
   ("validate_need_embed_api", "Embedding API mode requires API URL, API Key and model name"),
   ("detail_basic", "Basic Info"),
   ("detail_task_id", "Task ID"),
   ("detail_status", "Status"),
   ("detail_created_at", "Created"),
   ("detail_started_at", "Started"),
   ("detail_completed_at", "Completed"),
   ("detail_progress", "Progress"),
   ("detail_config", "Config"),
   ("detail_error", "Error"),
   ("detail_no_results", "No evaluation results available yet"),
   ("results_primary", "Primary"),
   ("results_judge", "LLM Judge Metrics"),
   ("results_classic", "Classic Metrics (BLEU/Rouge/BERTScore)"),
   ("results_other", "Other"),
   ("na", "N/A")]

/-- The `zh` table of `I18N` (app.js, `const I18N`), in source order. -/
def I18N_zh : List (String × String) :=
  [("title", "LegalKit：法律模型快速评测工具包"),
   ("brand", "LegalKit：法律模型快速评测工具包"),
   ("nav_dashboard", "评测任务"),
   ("nav_results", "结果查看"),
   ("nav_system", "系统信息"),
   ("tab_eval_config", "评测配置"),
   ("tab_results_mgmt", "结果管理"),
   ("tab_system_status", "系统状态"),
   ("settings_title", "评测任务配置"),
   ("system_title", "系统状态"),
   ("recent_title", "最近任务"),
   ("tasks_title", "任务列表"),
   ("refresh", "刷新"),
   ("gpu_title", "GPU信息"),
   ("datasets_title", "支持的数据集"),
   ("backends_title", "支持的加速后端"),
   ("start_eval", "开始评测"),
   ("model", "模型"),
   ("action", "操作"),
   ("modal_task_detail", "任务详情"),
   ("modal_results", "评测结果"),
   ("section_retrieval_title", "检索配置"),
   ("switch_retrieval_enable", "在生成前启用检索阶段"),
   ("label_retrieval_method", "检索方法"),
   ("label_retrieval_k", "Top-k"),
   ("label_faiss_type", "FAISS 索引"),
   ("label_embed_model_name", "Embedding 模型"),
   ("label_embed_api_url", "Embedding API 地址"),
   ("label_embed_api_key", "Embedding API Key"),
   ("label_embed_batch_size", "Embedding 批大小"),
   ("hint_retrieval_scope", "仅对实现了检索阶段的数据集生效（如 LexRAG），产物保存在 run_output。"),
   ("section_model_config_title", "模型配置"),
   ("label_model_type", "模型类型"),
   ("opt_model_local", "本地模型"),
   ("opt_model_hf", "HuggingFace模型"),
   ("opt_model_api", "API模型"),
   ("label_model_path", "模型路径/名称"),
   ("ph_model_path", "输入模型路径或名称"),
   ("label_dataset_select", "数据集选择"),
   ("label_dataset_list", "数据集"),
   ("hint_multi_select", "按住Ctrl键可多选"),
   ("label_subtasks", "子任务（可选）"),
   ("ph_subtasks", "例如: 2-1,2-2"),
   ("hint_subtasks", "用逗号分隔多个子任务"),
   ("section_run_config_title", "运行配置"),
   ("label_task_type", "任务类型"),
   ("opt_task_all", "完整流程"),
   ("opt_task_infer", "仅推理"),
   ("opt_task_eval", "仅评估"),
   ("label_accelerator", "加速器"),
   ("opt_acc_none", "无"),
   ("label_num_workers", "并行工作进程"),
   ("label_tensor_parallel", "张量并行度"),
   ("label_batch_size", "批次大小"),
   ("section_generation_params_title", "生成参数"),
   ("label_temperature", "温度"),
   ("label_top_p", "Top-p"),
   ("label_max_tokens", "最大Token数"),
   ("label_repetition_penalty", "重复惩罚"),
   ("section_json_eval_title", "JSON 离线评测 (可选)"),
   ("switch_json_eval", "启用 JSON 预测文件直接评测（跳过推理）"),
   ("label_json_paths", "JSON 文件路径（多数据集用 dataset=path，每行一个）"),
   ("ph_json_paths", "CaseGen=/path/to/casegen_preds.json"),
   ("label_json_model_label", "评测模型标签"),
   ("ph_json_model_label", "json_eval"),
   ("label_override_task_type", "覆盖任务类型"),
   ("override_eval_value", "自动设为 eval"),
   ("hint_json_models", "若未指定 models，将自动注入占位模型 json::label"),
   ("section_judge_title", "LLM 评审 (Judge) 配置 (可选)"),
   ("switch_judge_enable", "启用 LLM 作为评审"),
   ("label_judge_model_spec", "Judge 模型 Spec"),
   ("ph_judge_model_spec", "hf:Qwen/Qwen2.5-7B"),
   ("label_judge_batch", "Batch"),
   ("label_judge_tp", "并行度"),
   ("label_judge_temperature", "温度"),
   ("label_judge_top_p", "Top-p"),
   ("label_judge_max_tokens", "MaxTokens"),
   ("label_judge_rep_penalty", "重复惩罚"),
   ("label_judge_accelerator", "Judge 加速器"),
   ("opt_judge_none", "无"),
   ("label_judge_api_mode", "API 模式 (可选)"),
   ("ph_judge_api_url", "https://api.example.com/v1/chat"),
   ("ph_judge_api_key", "judge-api-key"),
   ("hint_judge_decoupled", "Judge 模型与主模型解耦，仅在评测阶段调用。"),
   ("modal_task_detail", "任务详情"),
   ("modal_results", "评测结果"),
   ("loading", "加载中..."),
   ("no_tasks", "暂无任务"),
   ("no_eval_tasks", "暂无评测任务"),
   ("no_gpu", "未检测到GPU"),
   ("discovered_models", "发现的模型:"),
   ("no_valid_models", "未找到有效模型"),
   ("status_pending", "等待中"),
   ("status_running", "运行中"),
   ("status_completed", "已完成"),
   ("status_failed", "失败"),
   ("metric_gpu_available", "可用GPU"),
   ("metric_datasets", "数据集"),
   ("metric_accelerators", "加速器"),
   ("metric_task_types", "任务类型"),
   ("metric_subtasks", "子任务"),
   ("no_backends", "未配置加速后端"),
   ("err_init", "加载初始数据失败: "),
   ("err_load_datasets", "加载数据集失败"),
   ("err_load_system", "加载系统信息失败"),
   ("err_load_tasks", "加载任务列表失败"),
   ("err_input_model_path", "请输入模型路径"),
   ("err_model_discovery_failed", "模型发现失败"),
   ("err_task_submit_failed", "任务提交失败"),
   ("err_get_task_detail", "获取任务详情失败"),
   ("err_get_results", "获取结果失败"),
   ("submit_success_prefix", "任务提交成功! 任务ID: "),
   ("validate_need_model", "请指定至少一个模型"),
   ("validate_need_dataset", "请选择至少一个数据集"),
   ("validate_need_api", "API模型需要提供API URL和API Key"),
   ("validate_need_json_paths", "JSON 评测模式需要提供 json_paths"),
   ("validate_json_task_eval", "JSON 评测模式下任务类型必须为 eval"),
   ("validate_need_embed_api", "Embedding API 模式需要提供 API URL、API Key 和模型名"),
   ("detail_basic", "基本信息"),
   ("detail_task_id", "任务ID"),
   ("detail_status", "状态"),
   ("detail_created_at", "创建时间"),
   ("detail_started_at", "开始时间"),
   ("detail_completed_at", "完成时间"),
   ("detail_progress", "进度"),
   ("detail_config", "配置参数"),
   ("detail_error", "错误信息"),
   ("detail_no_results", "暂无评测结果"),
   ("results_primary", "主指标"),
   ("results_judge", "LLM Judge 指标"),
   ("results_classic", "经典指标 (BLEU/Rouge/BERTScore)"),
   ("results_other", "其它"),
   ("na", "N/A")]
/-- The object `I18N`: its own keys are `en` and `zh`. -/
def I18N (lang : String) : Option (List (String × String)) :=
  if lang = "en" then some I18N_en
  else if lang = "zh" then some I18N_zh
  else none

/-- The lookup `t(key)`: `(I18N[this.lang] && I18N[this.lang][key]) || key`, for `this.lang = lang`.
A missing language, a missing key and an empty translation all give the key itself. -/
def t (lang key : String) : String :=
  match I18N lang with
  | none => key
  | some table =>
    match table.lookup key with
    | none => key
    | some s => if s = "" then key else s

/-! ## Result records and their grouping -/

/-- A value of a ResultRecord: a number or a string. -/
inductive MetricValue where
  | num (n : JSNum)
  | str (s : String)
deriving DecidableEq

/-- A plain object with data keys: its own enumerable properties, in order. -/
abbrev JSObject := List (String × MetricValue)

/-- The assignment `obj[k] = v` on a plain object whose prototype is `Object.prototype`,
for a primitive `v`. The key `__proto__` is not stored: the assignment reaches the
inherited `__proto__` accessor, whose setter ignores a value that is neither an object
nor `null`. Any other key is overwritten in place when present and appended otherwise. -/
def setProp (obj : JSObject) (k : String) (v : MetricValue) : JSObject :=
  if k = "__proto__" then obj
  else if obj.any (fun p => p.1 == k) then
    obj.map (fun p => if p.1 == k then (k, v) else p)
  else obj ++ [(k, v)]

/-- The local `groups` object of `groupMetricKeys`. -/
structure Groups where
  primary : JSObject
  judge : JSObject
  classic : JSObject
  other : JSObject
deriving DecidableEq

/-- One iteration of the loop of `groupMetricKeys` on the entry `[k, v]`. -/
def groupStep (groups : Groups) (kv : String × MetricValue) : Groups :=
  if kv.1 = "score" then { groups with primary := setProp groups.primary kv.1 kv.2 }
  else if startsWith kv.1 "judge_" then
    { groups with judge := setProp groups.judge kv.1 kv.2 }
  else if startsWith kv.1 "classic_" then
    { groups with classic := setProp groups.classic kv.1 kv.2 }
  else { groups with other := setProp groups.other kv.1 kv.2 }

/-- The function `groupMetricKeys(resultObj)`, on `Object.entries(resultObj)`. -/
def groupMetricKeys (resultObj : JSObject) : Groups :=
  resultObj.foldl groupStep { primary := [], judge := [], classic := [], other := [] }

/-- The group a key belongs to by the naming convention of the specification: `score`
is the primary metric, keys prefixed `judge_` are judge metrics, keys prefixed
`classic_` are classic metrics, everything else is residual. -/
inductive GroupName where
  | primary
  | judge
  | classic
  | other
deriving DecidableEq

/-- The group of a key, decided by the key alone. -/
def groupOf (k : String) : GroupName :=
  if k = "score" then .primary
  else if startsWith k "judge_" then .judge
  else if startsWith k "classic_" then .classic
  else .other

/-- The object of a group, by name. -/
def Groups.get (g : Groups) : GroupName → JSObject
  | .primary => g.primary
  | .judge => g.judge
  | .classic => g.classic
  | .other => g.other

/-! ## Score badge -/

/-- The numeric literal `0.8` of the source: the double nearest to 4/5. -/
def lit_0_8 : JSNum := .fin (3602879701896397 / 4503599627370496)

/-- The numeric literal `0.6` of the source: the double nearest to 3/5. -/
def lit_0_6 : JSNum := .fin (5404319552844595 / 9007199254740992)

/-- The method `getScoreClass(score)` for a number. -/
def getScoreClass (score : JSNum) : String :=
  if score.ge lit_0_8 then "score-high"
  else if score.ge lit_0_6 then "score-medium"
  else "score-low"

/-! ## Recent tasks -/

/-- A task record as returned by `GET /tasks`; the fields the client reads. -/
structure Task where
  id : String
  status : String
  created_at : String
deriving DecidableEq

/-- The comparator of `loadRecentTasks`, as an order: `a` may stand before `b` when
`new Date(b.created_at) - new Date(a.created_at) <= 0`. `time` gives the time value
(milliseconds) of `new Date(s)` for a valid timestamp `s`. -/
def recentFirst (time : String → Int) (a b : Task) : Prop :=
  time b.created_at - time a.created_at ≤ 0

instance recentFirst_decidable (time : String → Int) : DecidableRel (recentFirst time) :=
  fun a b => inferInstanceAs (Decidable (time b.created_at - time a.created_at ≤ 0))

instance recentFirst_isTotal (time : String → Int) : IsTotal Task (recentFirst time) :=
  ⟨fun a b => by
    unfold recentFirst
    omega⟩

instance recentFirst_isTrans (time : String → Int) : IsTrans Task (recentFirst time) :=
  ⟨fun a b c hab hbc => by
    unfold recentFirst at *
    omega⟩

/-- The call `tasks.sort((a, b) => new Date(b.created_at) - new Date(a.created_at))`:
`Array.prototype.sort` is a stable sort, modelled by stable insertion sort. -/
def sortRecentFirst (time : String → Int) (tasks : List Task) : List Task :=
  tasks.insertionSort (recentFirst time)

/-- The list `loadRecentTasks` passes to `displayRecentTasks`, from the response
of `GET /tasks`: sorted by creation time, most recent first, then `.slice(0, 5)`. -/
def loadRecentTasks (time : String → Int) (tasks : List Task) : List Task :=
  (sortRecentFirst time tasks).take 5

/-! ## The evaluation form and the request built from it -/

/-- The host functions `parseInt` and `parseFloat`. -/
structure Builtins where
  parseInt : String → JSNum
  parseFloat : String → JSNum

/-- The state of the evaluation form: the `value` of each input (a string), the
`checked` state of each switch, and the values of the selected dataset options. -/
structure FormState where
  modelType : String
  modelPath : String
  datasetSelect : List String
  subTasks : String
  taskPhase : String
  numWorkers : String
  tensorParallel : String
  batchSize : String
  temperature : String
  topP : String
  maxTokens : String
  repetitionPenalty : String
  accelerator : String
  jsonEvalSwitch : Bool
  jsonPaths : String
  jsonModelLabel : String
  retrievalSwitch : Bool
  retrievalMethod : String
  retrievalK : String
  retrievalFaissType : String
  embedBatchSize : String
  embedModelName : String
  embedApiUrl : String
  embedApiKey : String
  judgeSwitch : Bool
  judgeModelSpec : String
  judgeBatchSize : String
  judgeTensorParallel : String
  judgeTemperature : String
  judgeTopP : String
  judgeMaxTokens : String
  judgeRepPenalty : String
  judgeAccelerator : String
  judgeApiUrl : String
  judgeApiKey : String
  apiUrl : String
  apiKey : String
deriving DecidableEq

/-- The request object (`config`): one optional field per key the client ever writes
or reads, `none` for an absent key. -/
@[ext]
structure Config where
  models : Option (List String) := none
  datasets : Option (List String) := none
  task : Option String := none
  num_workers : Option JSNum := none
  tensor_parallel : Option JSNum := none
  batch_size : Option JSNum := none
  temperature : Option JSNum := none
  top_p : Option JSNum := none
  max_tokens : Option JSNum := none
  repetition_penalty : Option JSNum := none
  accelerator : Option String := none
  sub_tasks : Option (List String) := none
  json_eval : Option Bool := none
  json_paths : Option (List String) := none
  json_model_label : Option String := none
  retrieval_method : Option String := none
  retrieval_k : Option JSNum := none
  retrieval_faiss_type : Option String := none
  embed_batch_size : Option JSNum := none
  embed_model_name : Option String := none
  embed_api_url : Option String := none
  embed_api_key : Option String := none
  judge : Option String := none
  judge_batch_size : Option JSNum := none
  judge_tensor_parallel : Option JSNum := none
  judge_temperature : Option JSNum := none
  judge_top_p : Option JSNum := none
  judge_max_tokens : Option JSNum := none
  judge_repetition_penalty : Option JSNum := none
  judge_accelerator : Option String := none
  judge_api_url : Option String := none
  judge_api_key : Option String := none
  api_url : Option String := none
  api_key : Option String := none
deriving DecidableEq

/-- The first part of `getFormConfig`: the `models` array, the object literal
`config`, and the optional `accelerator` and `sub_tasks`. -/
def baseConfig (B : Builtins) (f : FormState) : Config :=
  let models :=
    if f.modelType = "api" then ["api:" ++ f.modelPath]
    else if f.modelType = "hf" then ["hf:" ++ f.modelPath]
    else [f.modelPath]
  let subTasksValue := jsTrim f.subTasks
  let subTasks : Option (List String) :=
    if subTasksValue ≠ "" then some ((splitComma subTasksValue).map jsTrim) else none
  let config : Config :=
    { models := some models
      datasets := some f.datasetSelect
      task := some f.taskPhase
      num_workers := some (B.parseInt f.numWorkers)
      tensor_parallel := some (B.parseInt f.tensorParallel)
      batch_size := some (B.parseInt f.batchSize)
      temperature := some (B.parseFloat f.temperature)
      top_p := some (B.parseFloat f.topP)
      max_tokens := some (B.parseInt f.maxTokens)
      repetition_penalty := some (B.parseFloat f.repetitionPenalty) }
  let config :=
    if f.accelerator ≠ "" then { config with accelerator := some f.accelerator } else config
  match subTasks with
  | some st => { config with sub_tasks := some st }
  | none => config

/-- The `lines` of the JSON eval section:
`rawPaths.split(/\n+/).map(l => l.trim()).filter(Boolean)`. -/
def jsonLines (rawPaths : String) : List String :=
  ((splitNewlines rawPaths).map jsTrim).filter (fun l => decide (l ≠ ""))

/-- The "JSON eval section" of `getFormConfig`. -/
def jsonEvalSection (f : FormState) (config : Config) : Config :=
  if f.jsonEvalSwitch then
    let config := { config with json_eval := some true }
    let rawPaths := jsTrim f.jsonPaths
    let config :=
      if rawPaths ≠ "" then
        let lines := jsonLines rawPaths
        { config with json_paths := some lines }
      else config
    let jl := jsTrim f.jsonModelLabel
    let config := if jl ≠ "" then { config with json_model_label := some jl } else config
    { config with task := some "eval" }
  else config

/-- The "Retrieval section" of `getFormConfig`. -/
def retrievalSection (B : Builtins) (f : FormState) (config : Config) : Config :=
  if f.retrievalSwitch then
    let rMethod := f.retrievalMethod
    let rK := B.parseInt f.retrievalK
    let rFaiss := f.retrievalFaissType
    let config := if rMethod ≠ "" then { config with retrieval_method := some rMethod } else config
    let config := if !rK.isNaN then { config with retrieval_k := some rK } else config
    if rMethod ≠ "" ∧ startsWith rMethod "dense" then
      let config :=
        if rFaiss ≠ "" then { config with retrieval_faiss_type := some rFaiss } else config
      let ebs := B.parseInt f.embedBatchSize
      let config := if !ebs.isNaN then { config with embed_batch_size := some ebs } else config
      if rMethod = "dense-api" then
        let emn := jsTrim f.embedModelName
        let eurl := jsTrim f.embedApiUrl
        let ekey := jsTrim f.embedApiKey
        let config := if emn ≠ "" then { config with embed_model_name := some emn } else config
        let config := if eurl ≠ "" then { config with embed_api_url := some eurl } else config
        if ekey ≠ "" then { config with embed_api_key := some ekey } else config
      else config
    else config
  else { config with retrieval_method := some "none" }

/-- The "Judge section" of `getFormConfig`. -/
def judgeSection (B : Builtins) (f : FormState) (config : Config) : Config :=
  if f.judgeSwitch then
    let spec := jsTrim f.judgeModelSpec
    let config := if spec ≠ "" then { config with judge := some spec } else config
    let jb := B.parseInt f.judgeBatchSize
    let config := if !jb.isNaN then { config with judge_batch_size := some jb } else config
    let jtp := B.parseInt f.judgeTensorParallel
    let config := if !jtp.isNaN then { config with judge_tensor_parallel := some jtp } else config
    let jt := B.parseFloat f.judgeTemperature
    let config := if !jt.isNaN then { config with judge_temperature := some jt } else config
    let jtop := B.parseFloat f.judgeTopP
    let config := if !jtop.isNaN then { config with judge_top_p := some jtop } else config
    let jmax := B.parseInt f.judgeMaxTokens
    let config := if !jmax.isNaN then { config with judge_max_tokens := some jmax } else config
    let jrep := B.parseFloat f.judgeRepPenalty
    let config :=
      if !jrep.isNaN then { config with judge_repetition_penalty := some jrep } else config
    let jacc := f.judgeAccelerator
    let config := if jacc ≠ "" then { config with judge_accelerator := some jacc } else config
    let japi := jsTrim f.judgeApiUrl
    let config := if japi ≠ "" then { config with judge_api_url := some japi } else config
    let japikey := jsTrim f.judgeApiKey
    if japikey ≠ "" then { config with judge_api_key := some japikey } else config
  else config

/-- The last step of `getFormConfig`: the API url and key are copied, as typed,
when the model type is `api`. -/
def apiSection (f : FormState) (config : Config) : Config :=
  if f.modelType = "api" then
    { config with api_url := some f.apiUrl, api_key := some f.apiKey }
  else config

/-- The method `getFormConfig()`: the request built from the form state. -/
def getFormConfig (B : Builtins) (f : FormState) : Config :=
  apiSection f (judgeSection B f (retrievalSection B f (jsonEvalSection f (baseConfig B f))))

/-- The statement `if (cond) config.key = value;` as a function of the request. -/
def assignIf (cond : Prop) [Decidable cond] (assign : Config → Config) (config : Config) :
    Config :=
  if cond then assign config else config

/-! ## Validation -/

/-- The test `!arr || arr.length === 0` for an array-valued property that may be absent. -/
def absentOrEmpty {α : Type} : Option (List α) → Bool
  | none => true
  | some l => l.isEmpty

/-- Truthiness of a number-valued property that may be absent. -/
def numTruthy : Option JSNum → Bool
  | none => false
  | some n => n.truthy

/-- The default of `validateConfig` ("Provide default for safety"):
`if (config.judge && !config.judge_batch_size) config.judge_batch_size = 4`. -/
def withJudgeDefault (config : Config) : Config :=
  if strTruthy config.judge && !numTruthy config.judge_batch_size then
    { config with judge_batch_size := some (.fin 4) }
  else config

/-- The method `validateConfig(config)` with `this.lang = lang`: `Except.error msg` when
`new Error(msg)` is thrown, and otherwise `Except.ok` of the request as the call leaves
it (the call writes `judge_batch_size` in one case). -/
def validateConfig (lang : String) (config : Config) : Except String Config := do
  if absentOrEmpty config.models then
    throw (t lang "validate_need_model")
  if absentOrEmpty config.datasets then
    throw (t lang "validate_need_dataset")
  if (config.models.getD []).any (fun m => startsWith m "api:") &&
      (!strTruthy config.api_url || !strTruthy config.api_key) then
    throw (t lang "validate_need_api")
  if config.json_eval = some true then
    if absentOrEmpty config.json_paths then
      throw (t lang "validate_need_json_paths")
    if config.task ≠ some "eval" then
      throw (t lang "validate_json_task_eval")
  let config := withJudgeDefault config
  if strTruthy config.retrieval_method ∧ config.retrieval_method ≠ some "none" then
    if config.retrieval_method = some "dense-api" then
      if !strTruthy config.embed_api_url || !strTruthy config.embed_api_key ||
          !strTruthy config.embed_model_name then
        throw (t lang "validate_need_embed_api")
  return config

/-! ## The rules of validation, as the specification lists them -/

/-- The six rules of `validate`, in the order the specification gives them. -/
inductive Rule where
  | needModel
  | needDataset
  | needApi
  | needJsonPaths
  | jsonTaskEval
  | needEmbedApi
deriving DecidableEq

/-- The translation key of a rule's message. -/
def Rule.key : Rule → String
  | .needModel => "validate_need_model"
  | .needDataset => "validate_need_dataset"
  | .needApi => "validate_need_api"
  | .needJsonPaths => "validate_need_json_paths"
  | .jsonTaskEval => "validate_json_task_eval"
  | .needEmbedApi => "validate_need_embed_api"

/-- The request violates the rule, in the specification's words: no models given; no
datasets given; a model is API-typed (starts with `api:`) but API URL or key is missing
or empty; JSON-eval is set but `json_paths` is absent or empty; JSON-eval is set but
`task` is not `eval`; the retrieval method is `dense-api` but embedding URL, key or
model name is missing or empty. -/
def Rule.violated (c : Config) : Rule → Prop
  | .needModel => c.models = none ∨ c.models = some []
  | .needDataset => c.datasets = none ∨ c.datasets = some []
  | .needApi =>
    (∃ ms, c.models = some ms ∧ ∃ m ∈ ms, startsWith m "api:" = true) ∧
      (c.api_url = none ∨ c.api_url = some "" ∨ c.api_key = none ∨ c.api_key = some "")
  | .needJsonPaths =>
    c.json_eval = some true ∧ (c.json_paths = none ∨ c.json_paths = some [])
  | .jsonTaskEval => c.json_eval = some true ∧ c.task ≠ some "eval"
  | .needEmbedApi =>
    c.retrieval_method = some "dense-api" ∧
      (c.embed_api_url = none ∨ c.embed_api_url = some "" ∨
       c.embed_api_key = none ∨ c.embed_api_key = some "" ∨
       c.embed_model_name = none ∨ c.embed_model_name = some "")

/-- The order in which the rules are listed. -/
def Rule.all : List Rule :=
  [.needModel, .needDataset, .needApi, .needJsonPaths, .jsonTaskEval, .needEmbedApi]

/-- The position of a rule in the order of the specification. -/
def Rule.rank : Rule → Nat
  | .needModel => 0
  | .needDataset => 1
  | .needApi => 2
  | .needJsonPaths => 3
  | .jsonTaskEval => 4
  | .needEmbedApi => 5

/-- The condition under which `validateConfig` reaches the `throw` of a rule, once the
rules before it have passed: the test of the source, rule by rule. -/
def Rule.check (c : Config) : Rule → Bool
  | .needModel => absentOrEmpty c.models
  | .needDataset => absentOrEmpty c.datasets
  | .needApi =>
    (c.models.getD []).any (fun m => startsWith m "api:") &&
      (!strTruthy c.api_url || !strTruthy c.api_key)
  | .needJsonPaths => decide (c.json_eval = some true) && absentOrEmpty c.json_paths
  | .jsonTaskEval => decide (c.json_eval = some true) && decide (c.task ≠ some "eval")
  | .needEmbedApi =>
    decide (c.retrieval_method = some "dense-api") &&
      (!strTruthy c.embed_api_url || !strTruthy c.embed_api_key ||
        !strTruthy c.embed_model_name)

/-- A string that is empty or consists of white space only: `trim` empties it. -/
def isBlank (s : String) : Bool :=
  s.toList.all isJSWhiteSpace

/-! ## Concrete data for the examples -/

/-- A host whose `parseInt` and `parseFloat` read a plain string of decimal digits and
give `NaN` on anything else; enough for the concrete form states below. -/
def digitsHost : Builtins :=
  let read : String → JSNum := fun s =>
    if s ≠ "" ∧ s.toList.all Char.isDigit then
      .fin (s.toList.foldl (fun n ch => 10 * n + (ch.toNat - 48)) 0 : Nat)
    else .nan
  { parseInt := read, parseFloat := read }

/-- The form with every field empty, every switch off and no dataset selected. -/
def blankForm : FormState :=
  { modelType := "", modelPath := "", datasetSelect := [], subTasks := "", taskPhase := "",
    numWorkers := "", tensorParallel := "", batchSize := "", temperature := "", topP := "",
    maxTokens := "", repetitionPenalty := "", accelerator := "", jsonEvalSwitch := false,
    jsonPaths := "", jsonModelLabel := "", retrievalSwitch := false, retrievalMethod := "",
    retrievalK := "", retrievalFaissType := "", embedBatchSize := "", embedModelName := "",
    embedApiUrl := "", embedApiKey := "", judgeSwitch := false, judgeModelSpec := "",
    judgeBatchSize := "", judgeTensorParallel := "", judgeTemperature := "", judgeTopP := "",
    judgeMaxTokens := "", judgeRepPenalty := "", judgeAccelerator := "", judgeApiUrl := "",
    judgeApiKey := "", apiUrl := "", apiKey := "" }

/-- A local model on one dataset, task `all`, every optional block switched off. -/
def localForm : FormState :=
  { blankForm with
    modelType := "local", modelPath := "local/path", datasetSelect := ["DatasetA"],
    taskPhase := "all", numWorkers := "4", tensorParallel := "1", batchSize := "8",
    temperature := "1", topP := "1", maxTokens := "512", repetitionPenalty := "1" }

/-- An API model with both credentials filled in. -/
def apiForm : FormState :=
  { localForm with
    modelType := "api", modelPath := "gpt-x", apiUrl := "https://api.example/v1",
    apiKey := "sk-1" }

/-- JSON-eval switched on while the task selector still says `all`. -/
def jsonForm : FormState :=
  { localForm with jsonEvalSwitch := true, jsonPaths := "DatasetA=/tmp/a.json" }

/-- Retrieval by an embedding API, with the embedding API key left blank (one space). -/
def denseApiForm : FormState :=
  { localForm with
    retrievalSwitch := true, retrievalMethod := "dense-api", retrievalK := "3",
    embedModelName := "embed-1", embedApiUrl := "https://embed.example", embedApiKey := " " }

/-- Retrieval by a sparse method; the embedding fields are filled in all the same. -/
def sparseForm : FormState :=
  { localForm with
    retrievalSwitch := true, retrievalMethod := "sparse-bm25", retrievalK := "3",
    embedModelName := "embed-1", embedApiUrl := "", embedApiKey := " " }

/-- Retrieval switched off while its fields are filled in. -/
def retrievalOffForm : FormState :=
  { localForm with
    retrievalSwitch := false, retrievalMethod := "dense-api", retrievalK := "3",
    retrievalFaissType := "Flat", embedBatchSize := "16", embedModelName := "embed-1",
    embedApiUrl := "https://embed.example", embedApiKey := "k" }

/-- A request that breaks three rules at once: no dataset, API model without
credentials, embedding API without its fields. -/
def brokenRequest : Config :=
  { models := some ["api:gpt-x"], datasets := some [], task := some "all",
    retrieval_method := some "dense-api" }

/-- Seven tasks created on seven consecutive days, listed out of order. -/
def sevenTasks : List Task :=
  [ { id := "task-c", status := "completed", created_at := "2024-01-03T00:00:00Z" },
    { id := "task-g", status := "pending", created_at := "2024-01-07T00:00:00Z" },
    { id := "task-a", status := "failed", created_at := "2024-01-01T00:00:00Z" },
    { id := "task-e", status := "completed", created_at := "2024-01-05T00:00:00Z" },
    { id := "task-b", status := "completed", created_at := "2024-01-02T00:00:00Z" },
    { id := "task-f", status := "running", created_at := "2024-01-06T00:00:00Z" },
    { id := "task-d", status := "completed", created_at := "2024-01-04T00:00:00Z" } ]

/-- The time values, in milliseconds, of the timestamps of `sevenTasks`. -/
def sevenTimes (s : String) : Int :=
  match [("2024-01-01T00:00:00Z", (1704067200000 : Int)),
      ("2024-01-02T00:00:00Z", 1704153600000), ("2024-01-03T00:00:00Z", 1704240000000),
      ("2024-01-04T00:00:00Z", 1704326400000), ("2024-01-05T00:00:00Z", 1704412800000),
      ("2024-01-06T00:00:00Z", 1704499200000),
      ("2024-01-07T00:00:00Z", 1704585600000)].lookup s with
  | some ms => ms
  | none => 0

/-- The doubles denoted by the scores `0.95`, `0.7` and `0.4` of a JSON payload. -/
def score_0_95 : JSNum := .fin (4278419646001971 / 4503599627370496)

/-- The double denoted by `0.7`. -/
def score_0_7 : JSNum := .fin (3152519739159347 / 4503599627370496)

/-- The double denoted by `0.4`. -/
def score_0_4 : JSNum := .fin (3602879701896397 / 9007199254740992)

/-! ## Results view -/

/-- The host conversions the results view relies on: `Number.prototype.toFixed(3)` and
the conversion of a string to a number that a comparison with a number performs. -/
structure RenderHost where
  toFixed3 : JSNum → String
  stringToNumber : String → JSNum

/-- The results of one model: subtask id to ResultRecord, in `Object.entries` order. -/
abbrev ModelResults := List (String × JSObject)

/-- A results mapping: model id to the results of that model, in `Object.entries` order. -/
abbrev Results := List (String × ModelResults)

/-- The test `!results || Object.keys(results).length === 0` on a results mapping that
may be absent. -/
def resultsEmpty : Option Results → Bool
  | none => true
  | some rs => rs.isEmpty

/-- The number a score is converted to when it is compared with a numeric literal:
`undefined` gives `NaN`, a number is itself, a string is converted by the host. -/
def scoreToNumber (H : RenderHost) : Option MetricValue → JSNum
  | none => .nan
  | some (.num n) => n
  | some (.str s) => H.stringToNumber s

/-- The call `this.getScoreClass(primaryScore)` for any value of `result.score`
(`none` is `undefined`). -/
def scoreClassOf (H : RenderHost) (primaryScore : Option MetricValue) : String :=
  getScoreClass (scoreToNumber H primaryScore)

/-- The text of the score badge,
`primaryScore !== undefined ? primaryScore.toFixed(3) : this.t('na')`: a string has no
method `toFixed`, so the call raises a `TypeError`. -/
def scoreText (lang : String) (H : RenderHost) : Option MetricValue → Except String String
  | none => .ok (t lang "na")
  | some (.num n) => .ok (H.toFixed3 n)
  | some (.str _) => .error "TypeError: primaryScore.toFixed is not a function"

/-- The score badge of a result card: the `span` of class `score-badge`; the class
expression is evaluated before the text. -/
def scoreBadge (lang : String) (H : RenderHost) (primaryScore : Option MetricValue) :
    Except String String := do
  let cls := scoreClassOf H primaryScore
  let text ← scoreText lang H primaryScore
  return "<span class=\"score-badge " ++ cls ++ "\">" ++ text ++ "</span>"

/-- One entry of a group, `k: v`, a number being formatted by `toFixed(3)`. -/
def renderEntry (H : RenderHost) (kv : String × MetricValue) : String :=
  kv.1 ++ ": " ++
    (match kv.2 with
    | .num n => H.toFixed3 n
    | .str s => s)

/-- The local function `renderGroup(title, data)`. -/
def renderGroup (H : RenderHost) (title : String) (data : JSObject) : String :=
  if data.isEmpty then ""
  else
    "\n                <div class=\"mb-2\">\n                    <strong>" ++ title ++
    "</strong><br>\n                    <small class=\"text-muted\">" ++
    ", ".intercalate (data.map (renderEntry H)) ++
    "</small>\n                </div>\n            "

/-- The card appended for one `[taskId, result]` entry of a model. -/
def renderCard (lang : String) (H : RenderHost) (taskId : String) (result : JSObject) :
    Except String String := do
  let groups := groupMetricKeys result
  let primaryScore := result.lookup "score"
  let badge ← scoreBadge lang H primaryScore
  return "\n                    <div class=\"card mb-3\">\n                      <div class=\"card-header d-flex justify-content-between align-items-center\">\n                        <span><code>" ++
    taskId ++ "</code></span>\n                        " ++ badge ++
    "\n                      </div>\n                      <div class=\"card-body\">\n                        " ++
    renderGroup H (t lang "results_primary") groups.primary ++ "\n                        " ++
    renderGroup H (t lang "results_judge") groups.judge ++ "\n                        " ++
    renderGroup H (t lang "results_classic") groups.classic ++ "\n                        " ++
    renderGroup H (t lang "results_other") groups.other ++
    "\n                      </div>\n                    </div>"

/-- The inner `forEach`: the cards of one model appended to `content`. -/
def renderCards (lang : String) (H : RenderHost) (content : String)
    (modelResults : ModelResults) : Except String String :=
  modelResults.foldlM
    (fun content entry => do
      let card ← renderCard lang H entry.1 entry.2
      return content ++ card)
    content

/-- The outer `forEach`: the block of one `[modelId, modelResults]` entry appended to
`content`. -/
def renderModel (lang : String) (H : RenderHost) (content : String)
    (entry : String × ModelResults) : Except String String := do
  let content := content ++ "<div class=\"col-12 mb-4\"><h5>" ++ entry.1 ++ "</h5>"
  let content ← renderCards lang H content entry.2
  return content ++ "</div>"

/-- The method `renderResultsContent(results)`: the markup, or the error it raises. -/
def renderResultsContent (lang : String) (H : RenderHost) (results : Option Results) :
    Except String String :=
  if resultsEmpty results then
    .ok ("<div class=\"alert alert-info\">" ++ t lang "detail_no_results" ++ "</div>")
  else do
    let content ← (results.getD []).foldlM (renderModel lang H) "<div class=\"row\">"
    return content ++ "</div>"

/-! ## Task detail -/

/-- The task returned by `GET /tasks/{id}`: the fields that decide the results section. -/
structure TaskDetail where
  id : String
  status : String
  results : Option Results

/-- What the request `GET /tasks/{id}/results` comes to: `fetch` rejects with an error
(`transportError`), or it resolves with a response that is not `ok`, of which the status
text and the `error` field of the payload are read (`failed`; a body that is not JSON
counts as `{}`), or it resolves with an `ok` response and its payload (`ok`). -/
inductive ResultsFetch where
  | transportError (message : String)
  | failed (statusText : String) (error : Option String)
  | ok (payload : Results)

/-- The outcome of `showTaskDetail` once the task is fetched: whether the results were
requested, and the `results` and `resultsError` handed to `displayTaskDetail`. -/
structure DetailView where
  requested : Bool
  results : Option Results
  resultsError : Option String

/-- The part of `showTaskDetail` that follows the fetch of the task: the results are
requested when the inline results are empty and the task is completed; a failure of that
request leaves its message in `resultsError`. -/
def showTaskDetail (task : TaskDetail) (fetchResults : ResultsFetch) : DetailView :=
  let results := task.results
  if resultsEmpty results && task.status == "completed" then
    match fetchResults with
    | .transportError message =>
      { requested := true, results := results, resultsError := some message }
    | .failed statusText error =>
      { requested := true, results := results
        resultsError := some (if strTruthy error then error.getD "" else statusText) }
    | .ok payload => { requested := true, results := some payload, resultsError := none }
  else { requested := false, results := results, resultsError := none }

/-- The markup of the state "results unavailable: reason". -/
def resultsUnavailable (lang : String) (reason : String) : String :=
  "\n                        <div class=\"mt-3\">\n                            <h6>" ++
  t lang "modal_results" ++
  "</h6>\n                            <div class=\"alert alert-warning\">" ++
  t lang "err_get_results" ++ ": " ++ reason ++
  "</div>\n                        </div>\n                    "

/-- The markup of the state "no results". -/
def noResults (lang : String) : String :=
  "\n                    <div class=\"mt-3\">\n                        <h6>" ++
  t lang "modal_results" ++
  "</h6>\n                        <div class=\"alert alert-info\">" ++
  t lang "detail_no_results" ++
  "</div>\n                    </div>\n                "

/-- The markup around rendered results. -/
def resultsShown (lang : String) (rendered : String) : String :=
  "\n                        <div class=\"mt-3\">\n                            <h6>" ++
  t lang "modal_results" ++ "</h6>\n                            " ++ rendered ++
  "\n                        </div>\n                    "

/-- The constant `resultsSection` of `displayTaskDetail(task, results, resultsError)`. -/
def resultsSection (lang : String) (H : RenderHost) (task : TaskDetail)
    (results : Option Results) (resultsError : Option String) : Except String String :=
  if task.status = "completed" then
    if strTruthy resultsError then .ok (resultsUnavailable lang (resultsError.getD ""))
    else if !resultsEmpty results then do
      let rendered ← renderResultsContent lang H results
      return resultsShown lang rendered
    else .ok (noResults lang)
  else .ok ""

/-- The results section of the detail view that `showTaskDetail` opens. -/
def detailResultsSection (lang : String) (H : RenderHost) (task : TaskDetail)
    (fetchResults : ResultsFetch) : Except String String :=
  let view := showTaskDetail task fetchResults
  resultsSection lang H task view.results view.resultsError

/-! ## Submission -/

/-- What the request `POST /submit_task` comes to: `fetch` rejects (`transportError`,
there is no response), or there is a response, with its `ok` flag (status 2xx or not),
and either its body is not JSON, so that `response.json()` rejects with a parse error
of the given message (`notJson`), or its body is a JSON object, of which `task_id` and
`error` are read (`json`). -/
inductive SubmitResponse where
  | transportError (message : String)
  | notJson (ok : Bool) (message : String)
  | json (ok : Bool) (task_id : Option String) (error : Option String)

/-- What `submitEvaluationTask` does to the outside, in order: the POST to
`/submit_task` with its body, a success or error notification, the refresh of the
recent-tasks view (a GET to `/tasks`), the click on the results tab. -/
inductive Effect where
  | postSubmitTask (body : Config)
  | showSuccess (message : String)
  | showError (message : String)
  | loadRecentTasks
  | clickResultsTab
deriving DecidableEq

/-- The form state after `submitEvaluationTask` and the effects it had. -/
structure SubmitRun where
  form : FormState
  effects : List Effect

/-- The method `submitEvaluationTask()` with `this.lang = lang`, on the form state
`form`; `server` answers the POST. The form is read by `getFormConfig` and never
written. The body is parsed (`await response.json()`) before `response.ok` is tested,
so a body that is not JSON leads to the `catch` block whatever the status is. -/
def submitEvaluationTask (B : Builtins) (lang : String) (form : FormState)
    (server : Config → SubmitResponse) : SubmitRun :=
  match validateConfig lang (getFormConfig B form) with
  | .error message =>
    { form := form
      effects := [.showError (t lang "err_task_submit_failed" ++ ": " ++ message)] }
  | .ok config =>
    match server config with
    | .transportError message =>
      { form := form
        effects := [.postSubmitTask config,
          .showError (t lang "err_task_submit_failed" ++ ": " ++ message)] }
    | .notJson _ message =>
      { form := form
        effects := [.postSubmitTask config,
          .showError (t lang "err_task_submit_failed" ++ ": " ++ message)] }
    | .json true task_id _ =>
      { form := form
        effects := [.postSubmitTask config,
          .showSuccess (t lang "submit_success_prefix" ++ task_id.getD "undefined"),
          .loadRecentTasks, .clickResultsTab] }
    | .json false _ error =>
      { form := form
        effects := [.postSubmitTask config,
          .showError (if strTruthy error then error.getD "" else
            t lang "err_task_submit_failed")] }

/-! ## Validation, with the request object made explicit -/

/-- The method `validateConfig(config)` as it acts on the request object: the outcome
(`Except.error msg` when `new Error(msg)` is thrown) together with the request as the
call leaves it, also when it throws. The only write is the default of
`judge_batch_size`, placed after the JSON rules and before the retrieval rule. -/
def validateConfigRun (lang : String) (config : Config) : Except String Unit × Config :=
  if absentOrEmpty config.models then
    (.error (t lang "validate_need_model"), config)
  else if absentOrEmpty config.datasets then
    (.error (t lang "validate_need_dataset"), config)
  else if (config.models.getD []).any (fun m => startsWith m "api:") &&
      (!strTruthy config.api_url || !strTruthy config.api_key) then
    (.error (t lang "validate_need_api"), config)
  else if config.json_eval = some true ∧ absentOrEmpty config.json_paths then
    (.error (t lang "validate_need_json_paths"), config)
  else if config.json_eval = some true ∧ config.task ≠ some "eval" then
    (.error (t lang "validate_json_task_eval"), config)
  else
    let config := withJudgeDefault config
    if strTruthy config.retrieval_method ∧ config.retrieval_method ≠ some "none" ∧
        config.retrieval_method = some "dense-api" ∧
        (!strTruthy config.embed_api_url || !strTruthy config.embed_api_key ||
          !strTruthy config.embed_model_name) then
      (.error (t lang "validate_need_embed_api"), config)
    else (.ok (), config)

/-! ## Concrete data for the examples of the results view and of submission -/

/-- A host for the examples: `toFixed(3)` of the numbers `0` and `1`, and the string
`"1"` as a number; any other string converts to `NaN`. -/
def sampleHost : RenderHost :=
  { toFixed3 := fun n =>
      match n with
      | .fin q => if q = 1 then "1.000" else if q = 0 then "0.000" else "?"
      | .posInf => "Infinity"
      | .negInf => "-Infinity"
      | .nan => "NaN"
    stringToNumber := fun s => if s = "1" then .fin 1 else .nan }

/-- One model, one subtask, a numeric score and a judge metric. -/
def sampleResults : Results :=
  [("model-a", [("subtask-1", [("score", .num (.fin 1)), ("judge_quality", .str "good")])])]

/-- One model, one subtask, a record without the key `score`. -/
def noScoreResults : Results :=
  [("model-a", [("subtask-1", [("accuracy", .str "high")])])]

/-- One model, one subtask, a record whose score is the string `"0.9"`. -/
def stringScoreResults : Results :=
  [("model-a", [("subtask-1", [("score", .str "0.9")])])]

/-- A completed task whose inline results are `{}`. -/
def completedEmptyTask : TaskDetail :=
  { id := "task-1", status := "completed", results := some [] }

/-- A completed task with inline results. -/
def completedTask : TaskDetail :=
  { id := "task-3", status := "completed", results := some sampleResults }

/-- A running task that already carries inline results. -/
def runningTask : TaskDetail :=
  { id := "task-2", status := "running", results := some sampleResults }

/-- A form with the judge block on and the judge batch size left empty. -/
def judgeForm : FormState :=
  { localForm with judgeSwitch := true, judgeModelSpec := "hf:judge", judgeBatchSize := "" }

/-- A request with a judge and no judge batch size, rejected by the embedding rule only. -/
def judgeDenseRequest : Config :=
  { models := some ["local/path"], datasets := some ["DatasetA"], task := some "all",
    judge := some "hf:judge", retrieval_method := some "dense-api" }

/-- A server that accepts every submission as task `t-42`. -/
def acceptingServer : Config → SubmitResponse :=
  fun _ => .json true (some "t-42") none

/-- A server that refuses every submission with status 400 and the given `error` field. -/
def refusingServer (error : Option String) : Config → SubmitResponse :=
  fun _ => .json false none error

/-- A gateway in front of the backend that answers every submission with an HTML page:
status 502 (`ok = false`) or, misconfigured, status 200 (`ok = true`). The message is the
one of the parse error that `response.json()` raises on a body beginning with `<`. -/
def htmlPageServer (ok : Bool) : Config → SubmitResponse :=
  fun _ => .notJson ok "Unexpected token < in JSON at position 0"

/-! ## Concrete data for the examples on the model path -/

/-- A Hugging Face model whose path begins with `api:`, no API credentials. -/
def hfApiPathForm : FormState :=
  { localForm with modelType := "hf", modelPath := "api:gpt-x" }

/-- A local model whose path begins with `api:`, with both API fields filled in. -/
def rawApiPathForm : FormState :=
  { localForm with
    modelPath := "api:gpt-x", apiUrl := "https://api.example/v1", apiKey := "sk-1" }

/-- A local model with an empty model path. -/
def emptyPathForm : FormState :=
  { localForm with modelPath := "" }

/-! ## The lines of the JSON paths field, in the specification's words -/

/-- In the specification's words: the newline-separated lines of the field, in order,
each with its surrounding white space trimmed, the blank lines removed. -/
def fieldLines (field : String) : List String :=
  (((splitCharAux '\n' [] field.toList).map String.mk).map jsTrim).filter
    (fun l => decide (l ≠ ""))

/-- The pieces of a split, on characters: each trimmed, the empty ones removed. -/
def trimmedPieces (pieces : List (List Char)) : List (List Char) :=
  (pieces.map trimChars).filter (fun p => decide (p ≠ []))

/-- The pieces of a split after one more character, not a separator, is read: it joins
the last piece. -/
def appendToLast (c : Char) : List (List Char) → List (List Char)
  | [] => [[c]]
  | [p] => [p ++ [c]]
  | p :: q :: ps => p :: appendToLast c (q :: ps)

/-- JSON-eval on, two paths on lines of their own with blank lines and stray white
space around them. -/
def twoPathsForm : FormState :=
  { localForm with
    jsonEvalSwitch := true, jsonPaths := "  A=/tmp/a.json \n\n\tB=/tmp/b.json\r\n " }

/-- JSON-eval on, the paths field holding white space only. -/
def blankPathsForm : FormState :=
  { localForm with jsonEvalSwitch := true, jsonPaths := " \n\t " }

/-! ## Facts about the helpers -/

theorem validateConfig_eq (lang : String) (config : Config) :
    validateConfig lang config =
      if absentOrEmpty config.models then .error (t lang "validate_need_model")
      else if absentOrEmpty config.datasets then .error (t lang "validate_need_dataset")
      else if (config.models.getD []).any (fun m => startsWith m "api:") &&
          (!strTruthy config.api_url || !strTruthy config.api_key) then
        .error (t lang "validate_need_api")
      else if config.json_eval = some true ∧ absentOrEmpty config.json_paths then
        .error (t lang "validate_need_json_paths")
      else if config.json_eval = some true ∧ config.task ≠ some "eval" then
        .error (t lang "validate_json_task_eval")
      else if config.retrieval_method = some "dense-api" ∧
          (!strTruthy config.embed_api_url || !strTruthy config.embed_api_key ||
            !strTruthy config.embed_model_name) then
        .error (t lang "validate_need_embed_api")
      else .ok (withJudgeDefault config) := by
  have hr : (withJudgeDefault config).retrieval_method = config.retrieval_method := by
    unfold withJudgeDefault; split <;> rfl
  have hu : (withJudgeDefault config).embed_api_url = config.embed_api_url := by
    unfold withJudgeDefault; split <;> rfl
  have hk : (withJudgeDefault config).embed_api_key = config.embed_api_key := by
    unfold withJudgeDefault; split <;> rfl
  have hm : (withJudgeDefault config).embed_model_name = config.embed_model_name := by
    unfold withJudgeDefault; split <;> rfl
  unfold validateConfig
  simp only [bind, Except.bind, pure, Except.pure, throw, throwThe, MonadExceptOf.throw,
    hr, hu, hk, hm]
  have hd : config.retrieval_method = some "dense-api" →
      (strTruthy config.retrieval_method = true ∧ config.retrieval_method ≠ some "none") := by
    intro h; rw [h]; decide
  generalize t lang "validate_need_model" = m1
  generalize t lang "validate_need_dataset" = m2
  generalize t lang "validate_need_api" = m3
  generalize t lang "validate_need_json_paths" = m4
  generalize t lang "validate_json_task_eval" = m5
  generalize t lang "validate_need_embed_api" = m6
  generalize withJudgeDefault config = c2
  have tail : (if strTruthy config.retrieval_method = true ∧
        config.retrieval_method ≠ some "none" then
        if config.retrieval_method = some "dense-api" then
          if (!strTruthy config.embed_api_url || !strTruthy config.embed_api_key ||
              !strTruthy config.embed_model_name) = true then
            (Except.error m6 : Except String Config)
          else Except.ok c2
        else Except.ok c2
      else Except.ok c2) =
      if config.retrieval_method = some "dense-api" ∧
          (!strTruthy config.embed_api_url || !strTruthy config.embed_api_key ||
            !strTruthy config.embed_model_name) = true then
        Except.error m6
      else Except.ok c2 := by
    by_cases hD : config.retrieval_method = some "dense-api"
    · rw [if_pos (hd hD), if_pos hD]
      simp only [hD, true_and]
    · rw [if_neg hD, ite_self, if_neg (fun h => hD h.1)]
  rw [tail]
  by_cases h1 : absentOrEmpty config.models = true
  · rw [if_pos h1, if_pos h1]
  rw [if_neg h1, if_neg h1]
  by_cases h2 : absentOrEmpty config.datasets = true
  · rw [if_pos h2, if_pos h2]
  rw [if_neg h2, if_neg h2]
  by_cases h3 : ((config.models.getD []).any (fun m => startsWith m "api:") &&
      (!strTruthy config.api_url || !strTruthy config.api_key)) = true
  · rw [if_pos h3, if_pos h3]
  rw [if_neg h3, if_neg h3]
  by_cases hJ : config.json_eval = some true
  · rw [if_pos hJ]
    by_cases h4 : absentOrEmpty config.json_paths = true
    · rw [if_pos h4, if_pos (And.intro hJ h4)]
    · have n4 : ¬(config.json_eval = some true ∧ absentOrEmpty config.json_paths = true) :=
        fun h => h4 h.2
      rw [if_neg h4, if_neg n4]
      by_cases h5 : config.task ≠ some "eval"
      · rw [if_pos h5, if_pos (And.intro hJ h5)]
      · have n5 : ¬(config.json_eval = some true ∧ config.task ≠ some "eval") :=
          fun h => h5 h.2
        rw [if_neg h5, if_neg n5]
  · have n4 : ¬(config.json_eval = some true ∧ absentOrEmpty config.json_paths = true) :=
      fun h => hJ h.1
    have n5 : ¬(config.json_eval = some true ∧ config.task ≠ some "eval") :=
      fun h => hJ h.1
    rw [if_neg hJ, if_neg n4, if_neg n5]

theorem judgeSection_pipe (B : Builtins) (f : FormState) (c : Config) :
    judgeSection B f c =
      if f.judgeSwitch then
        c |> assignIf (jsTrim f.judgeModelSpec ≠ "")
            (fun c => { c with judge := some (jsTrim f.judgeModelSpec) })
          |> assignIf (!(B.parseInt f.judgeBatchSize).isNaN)
            (fun c => { c with judge_batch_size := some (B.parseInt f.judgeBatchSize) })
          |> assignIf (!(B.parseInt f.judgeTensorParallel).isNaN)
            (fun c => { c with judge_tensor_parallel := some (B.parseInt f.judgeTensorParallel) })
          |> assignIf (!(B.parseFloat f.judgeTemperature).isNaN)
            (fun c => { c with judge_temperature := some (B.parseFloat f.judgeTemperature) })
          |> assignIf (!(B.parseFloat f.judgeTopP).isNaN)
            (fun c => { c with judge_top_p := some (B.parseFloat f.judgeTopP) })
          |> assignIf (!(B.parseInt f.judgeMaxTokens).isNaN)
            (fun c => { c with judge_max_tokens := some (B.parseInt f.judgeMaxTokens) })
          |> assignIf (!(B.parseFloat f.judgeRepPenalty).isNaN)
            (fun c => { c with judge_repetition_penalty := some (B.parseFloat f.judgeRepPenalty) })
          |> assignIf (f.judgeAccelerator ≠ "")
            (fun c => { c with judge_accelerator := some f.judgeAccelerator })
          |> assignIf (jsTrim f.judgeApiUrl ≠ "")
            (fun c => { c with judge_api_url := some (jsTrim f.judgeApiUrl) })
          |> assignIf (jsTrim f.judgeApiKey ≠ "")
            (fun c => { c with judge_api_key := some (jsTrim f.judgeApiKey) })
      else c := rfl

theorem assignIf_apply {α : Type} (p : Config → α) (cond : Prop) [Decidable cond]
    (assign : Config → Config) (c : Config) :
    p (assignIf cond assign c) = if cond then p (assign c) else p c := by
  unfold assignIf; split <;> rfl

theorem retrievalSection_pipe (B : Builtins) (f : FormState) (c : Config) :
    retrievalSection B f c =
      if f.retrievalSwitch then
        if f.retrievalMethod ≠ "" ∧ startsWith f.retrievalMethod "dense" then
          if f.retrievalMethod = "dense-api" then
            c |> assignIf (f.retrievalMethod ≠ "")
                (fun c => { c with retrieval_method := some f.retrievalMethod })
              |> assignIf (!(B.parseInt f.retrievalK).isNaN)
                (fun c => { c with retrieval_k := some (B.parseInt f.retrievalK) })
              |> assignIf (f.retrievalFaissType ≠ "")
                (fun c => { c with retrieval_faiss_type := some f.retrievalFaissType })
              |> assignIf (!(B.parseInt f.embedBatchSize).isNaN)
                (fun c => { c with embed_batch_size := some (B.parseInt f.embedBatchSize) })
              |> assignIf (jsTrim f.embedModelName ≠ "")
                (fun c => { c with embed_model_name := some (jsTrim f.embedModelName) })
              |> assignIf (jsTrim f.embedApiUrl ≠ "")
                (fun c => { c with embed_api_url := some (jsTrim f.embedApiUrl) })
              |> assignIf (jsTrim f.embedApiKey ≠ "")
                (fun c => { c with embed_api_key := some (jsTrim f.embedApiKey) })
          else
            c |> assignIf (f.retrievalMethod ≠ "")
                (fun c => { c with retrieval_method := some f.retrievalMethod })
              |> assignIf (!(B.parseInt f.retrievalK).isNaN)
                (fun c => { c with retrieval_k := some (B.parseInt f.retrievalK) })
              |> assignIf (f.retrievalFaissType ≠ "")
                (fun c => { c with retrieval_faiss_type := some f.retrievalFaissType })
              |> assignIf (!(B.parseInt f.embedBatchSize).isNaN)
                (fun c => { c with embed_batch_size := some (B.parseInt f.embedBatchSize) })
        else
          c |> assignIf (f.retrievalMethod ≠ "")
              (fun c => { c with retrieval_method := some f.retrievalMethod })
            |> assignIf (!(B.parseInt f.retrievalK).isNaN)
              (fun c => { c with retrieval_k := some (B.parseInt f.retrievalK) })
      else { c with retrieval_method := some "none" } := rfl

theorem jsonEvalSection_pipe (f : FormState) (c : Config) :
    jsonEvalSection f c =
      if f.jsonEvalSwitch then
        { c with json_eval := some true }
          |> assignIf (jsTrim f.jsonPaths ≠ "")
            (fun c => { c with json_paths := some (jsonLines (jsTrim f.jsonPaths)) })
          |> assignIf (jsTrim f.jsonModelLabel ≠ "")
            (fun c => { c with json_model_label := some (jsTrim f.jsonModelLabel) })
          |> (fun c => { c with task := some "eval" })
      else c := rfl

theorem baseConfig_pipe (B : Builtins) (f : FormState) :
    baseConfig B f =
      (({ models := some (if f.modelType = "api" then ["api:" ++ f.modelPath]
            else if f.modelType = "hf" then ["hf:" ++ f.modelPath]
            else [f.modelPath])
          datasets := some f.datasetSelect
          task := some f.taskPhase
          num_workers := some (B.parseInt f.numWorkers)
          tensor_parallel := some (B.parseInt f.tensorParallel)
          batch_size := some (B.parseInt f.batchSize)
          temperature := some (B.parseFloat f.temperature)
          top_p := some (B.parseFloat f.topP)
          max_tokens := some (B.parseInt f.maxTokens)
          repetition_penalty := some (B.parseFloat f.repetitionPenalty) } : Config)
        |> assignIf (f.accelerator ≠ "") (fun c => { c with accelerator := some f.accelerator })
        |> assignIf (jsTrim f.subTasks ≠ "")
          (fun c =>
            { c with sub_tasks := some ((splitComma (jsTrim f.subTasks)).map jsTrim) })) := by
  unfold baseConfig assignIf
  by_cases h : jsTrim f.subTasks ≠ ""
  · simp only [if_pos h]
  · simp only [if_neg h]

theorem getFormConfig_models (B : Builtins) (f : FormState) :
    (getFormConfig B f).models =
      some (if f.modelType = "api" then ["api:" ++ f.modelPath]
        else if f.modelType = "hf" then ["hf:" ++ f.modelPath]
        else [f.modelPath]) := by
  simp only [getFormConfig, apiSection, judgeSection_pipe, retrievalSection_pipe,
    jsonEvalSection_pipe, baseConfig_pipe, assignIf_apply Config.models,
    apply_ite Config.models, ite_self]

theorem getFormConfig_datasets (B : Builtins) (f : FormState) :
    (getFormConfig B f).datasets =
      some f.datasetSelect := by
  simp only [getFormConfig, apiSection, judgeSection_pipe, retrievalSection_pipe,
    jsonEvalSection_pipe, baseConfig_pipe, assignIf_apply Config.datasets,
    apply_ite Config.datasets, ite_self]

theorem getFormConfig_task (B : Builtins) (f : FormState) :
    (getFormConfig B f).task =
      if f.jsonEvalSwitch then some "eval" else some f.taskPhase := by
  simp only [getFormConfig, apiSection, judgeSection_pipe, retrievalSection_pipe,
    jsonEvalSection_pipe, baseConfig_pipe, assignIf_apply Config.task,
    apply_ite Config.task, ite_self]

theorem getFormConfig_json_eval (B : Builtins) (f : FormState) :
    (getFormConfig B f).json_eval =
      if f.jsonEvalSwitch then some true else none := by
  simp only [getFormConfig, apiSection, judgeSection_pipe, retrievalSection_pipe,
    jsonEvalSection_pipe, baseConfig_pipe, assignIf_apply Config.json_eval,
    apply_ite Config.json_eval, ite_self]

theorem getFormConfig_json_paths (B : Builtins) (f : FormState) :
    (getFormConfig B f).json_paths =
      if f.jsonEvalSwitch then
        if jsTrim f.jsonPaths ≠ "" then some (jsonLines (jsTrim f.jsonPaths)) else none
      else none := by
  simp only [getFormConfig, apiSection, judgeSection_pipe, retrievalSection_pipe,
    jsonEvalSection_pipe, baseConfig_pipe, assignIf_apply Config.json_paths,
    apply_ite Config.json_paths, ite_self]

theorem getFormConfig_json_model_label (B : Builtins) (f : FormState) :
    (getFormConfig B f).json_model_label =
      if f.jsonEvalSwitch then
        if jsTrim f.jsonModelLabel ≠ "" then some (jsTrim f.jsonModelLabel) else none
      else none := by
  simp only [getFormConfig, apiSection, judgeSection_pipe, retrievalSection_pipe,
    jsonEvalSection_pipe, baseConfig_pipe, assignIf_apply Config.json_model_label,
    apply_ite Config.json_model_label, ite_self]

theorem getFormConfig_judge (B : Builtins) (f : FormState) :
    (getFormConfig B f).judge =
      if f.judgeSwitch then
        if jsTrim f.judgeModelSpec ≠ "" then some (jsTrim f.judgeModelSpec) else none
      else none := by
  simp only [getFormConfig, apiSection, judgeSection_pipe, retrievalSection_pipe,
    jsonEvalSection_pipe, baseConfig_pipe, assignIf_apply Config.judge,
    apply_ite Config.judge, ite_self]

theorem getFormConfig_judge_batch_size (B : Builtins) (f : FormState) :
    (getFormConfig B f).judge_batch_size =
      if f.judgeSwitch then
        if !(B.parseInt f.judgeBatchSize).isNaN then some (B.parseInt f.judgeBatchSize)
        else none
      else none := by
  simp only [getFormConfig, apiSection, judgeSection_pipe, retrievalSection_pipe,
    jsonEvalSection_pipe, baseConfig_pipe, assignIf_apply Config.judge_batch_size,
    apply_ite Config.judge_batch_size, ite_self]

theorem getFormConfig_api_url (B : Builtins) (f : FormState) :
    (getFormConfig B f).api_url =
      if f.modelType = "api" then some f.apiUrl else none := by
  simp only [getFormConfig, apiSection, judgeSection_pipe, retrievalSection_pipe,
    jsonEvalSection_pipe, baseConfig_pipe, assignIf_apply Config.api_url,
    apply_ite Config.api_url, ite_self]

theorem getFormConfig_api_key (B : Builtins) (f : FormState) :
    (getFormConfig B f).api_key =
      if f.modelType = "api" then some f.apiKey else none := by
  simp only [getFormConfig, apiSection, judgeSection_pipe, retrievalSection_pipe,
    jsonEvalSection_pipe, baseConfig_pipe, assignIf_apply Config.api_key,
    apply_ite Config.api_key, ite_self]

theorem dense_api_is_dense : ("dense-api" : String) ≠ "" ∧ startsWith "dense-api" "dense" = true := by
  decide

theorem getFormConfig_retrieval_method (B : Builtins) (f : FormState) :
    (getFormConfig B f).retrieval_method =
      if f.retrievalSwitch then
        if f.retrievalMethod ≠ "" then some f.retrievalMethod else none
      else some "none" := by
  simp only [getFormConfig, apiSection, judgeSection_pipe, retrievalSection_pipe,
    jsonEvalSection_pipe, baseConfig_pipe, assignIf_apply Config.retrieval_method,
    apply_ite Config.retrieval_method, ite_self]

theorem getFormConfig_retrieval_k (B : Builtins) (f : FormState) :
    (getFormConfig B f).retrieval_k =
      if f.retrievalSwitch then
        if !(B.parseInt f.retrievalK).isNaN then some (B.parseInt f.retrievalK) else none
      else none := by
  simp only [getFormConfig, apiSection, judgeSection_pipe, retrievalSection_pipe,
    jsonEvalSection_pipe, baseConfig_pipe, assignIf_apply Config.retrieval_k,
    apply_ite Config.retrieval_k, ite_self]

theorem getFormConfig_retrieval_faiss_type (B : Builtins) (f : FormState) :
    (getFormConfig B f).retrieval_faiss_type =
      if f.retrievalSwitch then
        if f.retrievalMethod ≠ "" ∧ startsWith f.retrievalMethod "dense" then
          if f.retrievalFaissType ≠ "" then some f.retrievalFaissType else none
        else none
      else none := by
  simp only [getFormConfig, apiSection, judgeSection_pipe, retrievalSection_pipe,
    jsonEvalSection_pipe, baseConfig_pipe, assignIf_apply Config.retrieval_faiss_type,
    apply_ite Config.retrieval_faiss_type, ite_self]

theorem getFormConfig_embed_batch_size (B : Builtins) (f : FormState) :
    (getFormConfig B f).embed_batch_size =
      if f.retrievalSwitch then
        if f.retrievalMethod ≠ "" ∧ startsWith f.retrievalMethod "dense" then
          if !(B.parseInt f.embedBatchSize).isNaN then some (B.parseInt f.embedBatchSize)
          else none
        else none
      else none := by
  simp only [getFormConfig, apiSection, judgeSection_pipe, retrievalSection_pipe,
    jsonEvalSection_pipe, baseConfig_pipe, assignIf_apply Config.embed_batch_size,
    apply_ite Config.embed_batch_size, ite_self]

theorem getFormConfig_embed_model_name (B : Builtins) (f : FormState) :
    (getFormConfig B f).embed_model_name =
      if f.retrievalSwitch = true ∧ f.retrievalMethod = "dense-api" ∧ jsTrim f.embedModelName ≠ "" then
        some (jsTrim f.embedModelName)
      else none := by
  simp only [getFormConfig, apiSection, judgeSection_pipe, retrievalSection_pipe,
    jsonEvalSection_pipe, baseConfig_pipe, assignIf_apply Config.embed_model_name,
    apply_ite Config.embed_model_name, ite_self]
  by_cases hs : f.retrievalSwitch = true
  · by_cases ha : f.retrievalMethod = "dense-api"
    · have hd : f.retrievalMethod ≠ "" ∧ startsWith f.retrievalMethod "dense" = true := by
        rw [ha]; exact dense_api_is_dense
      rw [if_pos hs, if_pos hd, if_pos ha]
      by_cases he : jsTrim f.embedModelName ≠ ""
      · rw [if_pos he, if_pos ⟨hs, ha, he⟩]
      · rw [if_neg he, if_neg (fun h => he h.2.2)]
    · rw [if_pos hs, if_neg ha, ite_self, if_neg (fun h => ha h.2.1)]
  · rw [if_neg hs, if_neg (fun h => hs h.1)]

theorem getFormConfig_embed_api_url (B : Builtins) (f : FormState) :
    (getFormConfig B f).embed_api_url =
      if f.retrievalSwitch = true ∧ f.retrievalMethod = "dense-api" ∧ jsTrim f.embedApiUrl ≠ "" then
        some (jsTrim f.embedApiUrl)
      else none := by
  simp only [getFormConfig, apiSection, judgeSection_pipe, retrievalSection_pipe,
    jsonEvalSection_pipe, baseConfig_pipe, assignIf_apply Config.embed_api_url,
    apply_ite Config.embed_api_url, ite_self]
  by_cases hs : f.retrievalSwitch = true
  · by_cases ha : f.retrievalMethod = "dense-api"
    · have hd : f.retrievalMethod ≠ "" ∧ startsWith f.retrievalMethod "dense" = true := by
        rw [ha]; exact dense_api_is_dense
      rw [if_pos hs, if_pos hd, if_pos ha]
      by_cases he : jsTrim f.embedApiUrl ≠ ""
      · rw [if_pos he, if_pos ⟨hs, ha, he⟩]
      · rw [if_neg he, if_neg (fun h => he h.2.2)]
    · rw [if_pos hs, if_neg ha, ite_self, if_neg (fun h => ha h.2.1)]
  · rw [if_neg hs, if_neg (fun h => hs h.1)]

theorem getFormConfig_embed_api_key (B : Builtins) (f : FormState) :
    (getFormConfig B f).embed_api_key =
      if f.retrievalSwitch = true ∧ f.retrievalMethod = "dense-api" ∧ jsTrim f.embedApiKey ≠ "" then
        some (jsTrim f.embedApiKey)
      else none := by
  simp only [getFormConfig, apiSection, judgeSection_pipe, retrievalSection_pipe,
    jsonEvalSection_pipe, baseConfig_pipe, assignIf_apply Config.embed_api_key,
    apply_ite Config.embed_api_key, ite_self]
  by_cases hs : f.retrievalSwitch = true
  · by_cases ha : f.retrievalMethod = "dense-api"
    · have hd : f.retrievalMethod ≠ "" ∧ startsWith f.retrievalMethod "dense" = true := by
        rw [ha]; exact dense_api_is_dense
      rw [if_pos hs, if_pos hd, if_pos ha]
      by_cases he : jsTrim f.embedApiKey ≠ ""
      · rw [if_pos he, if_pos ⟨hs, ha, he⟩]
      · rw [if_neg he, if_neg (fun h => he h.2.2)]
    · rw [if_pos hs, if_neg ha, ite_self, if_neg (fun h => ha h.2.1)]
  · rw [if_neg hs, if_neg (fun h => hs h.1)]

/-! ## Rules of validation: the specification's wording against the tests of the code -/

theorem absentOrEmpty_iff {α : Type} (o : Option (List α)) :
    absentOrEmpty o = true ↔ o = none ∨ o = some [] := by
  cases o with
  | none => simp [absentOrEmpty]
  | some l => cases l <;> simp [absentOrEmpty]

theorem strTruthy_eq_false_iff (o : Option String) :
    strTruthy o = false ↔ o = none ∨ o = some "" := by
  cases o with
  | none => simp [strTruthy]
  | some s => simp [strTruthy]

theorem any_getD_iff (o : Option (List String)) (p : String → Bool) :
    (o.getD []).any p = true ↔ ∃ ms, o = some ms ∧ ∃ m ∈ ms, p m = true := by
  cases o with
  | none => simp
  | some l => simp

theorem Rule.violated_iff_check (c : Config) (r : Rule) :
    r.violated c ↔ r.check c = true := by
  cases r <;>
    simp only [Rule.violated, Rule.check, absentOrEmpty_iff, Bool.and_eq_true, Bool.or_eq_true,
      Bool.not_eq_true', strTruthy_eq_false_iff, any_getD_iff, decide_eq_true_eq, or_assoc]

theorem validateConfig_eq_check (lang : String) (c : Config) :
    validateConfig lang c =
      if Rule.needModel.check c then .error (t lang Rule.needModel.key)
      else if Rule.needDataset.check c then .error (t lang Rule.needDataset.key)
      else if Rule.needApi.check c then .error (t lang Rule.needApi.key)
      else if Rule.needJsonPaths.check c then .error (t lang Rule.needJsonPaths.key)
      else if Rule.jsonTaskEval.check c then .error (t lang Rule.jsonTaskEval.key)
      else if Rule.needEmbedApi.check c then .error (t lang Rule.needEmbedApi.key)
      else .ok (withJudgeDefault c) := by
  rw [validateConfig_eq]
  simp only [Rule.check, Rule.key, Bool.and_eq_true, decide_eq_true_eq]

theorem validateConfig_error_of_first (lang : String) (c : Config) (r : Rule)
    (hr : r.check c = true) (hb : ∀ r2 : Rule, r2.rank < r.rank → r2.check c = false) :
    validateConfig lang c = .error (t lang r.key) := by
  rw [validateConfig_eq_check]
  cases r
  · rw [if_pos hr]
  · have h0 := hb .needModel (by decide)
    simp only [h0, hr, Bool.false_eq_true, ↓reduceIte]
  · have h0 := hb .needModel (by decide)
    have h1 := hb .needDataset (by decide)
    simp only [h0, h1, hr, Bool.false_eq_true, ↓reduceIte]
  · have h0 := hb .needModel (by decide)
    have h1 := hb .needDataset (by decide)
    have h2 := hb .needApi (by decide)
    simp only [h0, h1, h2, hr, Bool.false_eq_true, ↓reduceIte]
  · have h0 := hb .needModel (by decide)
    have h1 := hb .needDataset (by decide)
    have h2 := hb .needApi (by decide)
    have h3 := hb .needJsonPaths (by decide)
    simp only [h0, h1, h2, h3, hr, Bool.false_eq_true, ↓reduceIte]
  · have h0 := hb .needModel (by decide)
    have h1 := hb .needDataset (by decide)
    have h2 := hb .needApi (by decide)
    have h3 := hb .needJsonPaths (by decide)
    have h4 := hb .jsonTaskEval (by decide)
    simp only [h0, h1, h2, h3, h4, hr, Bool.false_eq_true, ↓reduceIte]

theorem validateConfig_ok_of_none (lang : String) (c : Config)
    (h : ∀ r : Rule, r.check c = false) :
    validateConfig lang c = .ok (withJudgeDefault c) := by
  rw [validateConfig_eq_check]
  simp only [h, Bool.false_eq_true, ↓reduceIte]

theorem validateConfig_fails_of_check (lang : String) (c : Config) (r : Rule)
    (hr : r.check c = true) : ∃ msg, validateConfig lang c = .error msg := by
  rw [validateConfig_eq_check]
  by_cases h0 : Rule.needModel.check c = true
  · exact ⟨_, if_pos h0⟩
  rw [if_neg h0]
  by_cases h1 : Rule.needDataset.check c = true
  · exact ⟨_, if_pos h1⟩
  rw [if_neg h1]
  by_cases h2 : Rule.needApi.check c = true
  · exact ⟨_, if_pos h2⟩
  rw [if_neg h2]
  by_cases h3 : Rule.needJsonPaths.check c = true
  · exact ⟨_, if_pos h3⟩
  rw [if_neg h3]
  by_cases h4 : Rule.jsonTaskEval.check c = true
  · exact ⟨_, if_pos h4⟩
  rw [if_neg h4]
  by_cases h5 : Rule.needEmbedApi.check c = true
  · exact ⟨_, if_pos h5⟩
  cases r <;> contradiction

theorem validateConfig_fails_iff (lang : String) (c : Config) :
    (∃ msg, validateConfig lang c = .error msg) ↔ ∃ r : Rule, r.check c = true := by
  constructor
  · intro ⟨msg, hmsg⟩
    by_contra hne
    have hall : ∀ r : Rule, r.check c = false := by
      intro r
      cases hr : r.check c
      · rfl
      · exact absurd ⟨r, hr⟩ hne
    rw [validateConfig_ok_of_none lang c hall] at hmsg
    cases hmsg
  · intro ⟨r, hr⟩
    exact validateConfig_fails_of_check lang c r hr

theorem startsWith_append (p s : String) : startsWith (p ++ s) p = true := by
  unfold startsWith
  rw [List.isPrefixOf_iff_prefix]
  simp only [String.toList, String.data_append]
  exact List.prefix_append _ _

theorem trimChars_blank (l : List Char) (h : l.all isJSWhiteSpace = true) :
    trimChars l = [] := by
  unfold trimChars
  have h1 : l.dropWhile isJSWhiteSpace = [] := by
    rw [List.dropWhile_eq_nil_iff]
    intro x hx
    exact List.all_eq_true.mp h x hx
  rw [h1]
  rfl

theorem jsTrim_blank (s : String) (h : isBlank s = true) : jsTrim s = "" := by
  unfold jsTrim
  rw [trimChars_blank _ h]

/-! ## Claims -/

/-- C2. A request whose `models` is absent or empty is rejected with the need-model
message; a request whose `models` is non-empty and whose `datasets` is absent or empty
is rejected with the need-dataset message; so every request with no models or no
datasets is rejected. -/
theorem validateConfig_requires_models_and_datasets (lang : String) (c : Config) :
    ((c.models = none ∨ c.models = some []) →
      validateConfig lang c = .error (t lang "validate_need_model")) ∧
    ((∃ m ms, c.models = some (m :: ms)) → (c.datasets = none ∨ c.datasets = some []) →
      validateConfig lang c = .error (t lang "validate_need_dataset")) ∧
    ((c.models = none ∨ c.models = some [] ∨ c.datasets = none ∨ c.datasets = some []) →
      ∃ msg, validateConfig lang c = .error msg) := by
  refine ⟨?_, ?_, ?_⟩
  · intro h
    exact validateConfig_error_of_first lang c .needModel
      ((absentOrEmpty_iff _).mpr h) (fun r2 h2 => by cases r2 <;> simp [Rule.rank] at h2)
  · intro ⟨m, ms, hm⟩ h
    refine validateConfig_error_of_first lang c .needDataset ((absentOrEmpty_iff _).mpr h) ?_
    intro r2 h2
    cases r2 <;> simp [Rule.rank] at h2
    simp [Rule.check, hm, absentOrEmpty]
  · intro h
    rcases h with h | h | h | h
    · exact validateConfig_fails_of_check lang c .needModel ((absentOrEmpty_iff _).mpr (Or.inl h))
    · exact validateConfig_fails_of_check lang c .needModel ((absentOrEmpty_iff _).mpr (Or.inr h))
    · exact validateConfig_fails_of_check lang c .needDataset
        ((absentOrEmpty_iff _).mpr (Or.inl h))
    · exact validateConfig_fails_of_check lang c .needDataset
        ((absentOrEmpty_iff _).mpr (Or.inr h))

/-- C2, on concrete requests: the empty request gets the English need-model message,
and a request with a model and an empty dataset list the English need-dataset message. -/
theorem validateConfig_requires_models_and_datasets_witness :
    validateConfig "en" {} = .error "Please specify at least one model" ∧
    validateConfig "en" { models := some ["local/path"], datasets := some [] } =
      .error "Please select at least one dataset" :=
  ⟨(validateConfig_requires_models_and_datasets "en" {}).1 (Or.inl rfl),
   (validateConfig_requires_models_and_datasets "en"
      { models := some ["local/path"], datasets := some [] }).2.1
      ⟨"local/path", [], rfl⟩ (Or.inr rfl)⟩

/-- C3. With `modelType = "api"`, the request built from the form is rejected when the
API URL field or the API key field is empty; when both are non-empty, a dataset is
selected and the JSON-eval and retrieval switches are off, it is accepted. -/
theorem api_form_needs_credentials (B : Builtins) (lang : String) (f : FormState)
    (hapi : f.modelType = "api") :
    ((f.apiUrl = "" ∨ f.apiKey = "") →
      ∃ msg, validateConfig lang (getFormConfig B f) = .error msg) ∧
    (f.apiUrl ≠ "" → f.apiKey ≠ "" → f.datasetSelect ≠ [] → f.jsonEvalSwitch = false →
      f.retrievalSwitch = false →
      validateConfig lang (getFormConfig B f) = .ok (withJudgeDefault (getFormConfig B f))) := by
  have hm : (getFormConfig B f).models = some ["api:" ++ f.modelPath] := by
    rw [getFormConfig_models, if_pos hapi]
  have hu : (getFormConfig B f).api_url = some f.apiUrl := by
    rw [getFormConfig_api_url, if_pos hapi]
  have hk : (getFormConfig B f).api_key = some f.apiKey := by
    rw [getFormConfig_api_key, if_pos hapi]
  constructor
  · intro h
    apply validateConfig_fails_of_check lang _ .needApi
    simp only [Rule.check, hm, hu, hk, Option.getD_some, List.any_cons, List.any_nil,
      startsWith_append, Bool.or_false, Bool.true_and, strTruthy, Bool.or_eq_true,
      Bool.not_eq_true', decide_eq_false_iff_not, ne_eq, not_not]
    exact h
  · intro h1 h2 h3 h4 h5
    apply validateConfig_ok_of_none
    intro r
    cases r
    · simp [Rule.check, hm, absentOrEmpty]
    · simp [Rule.check, getFormConfig_datasets, absentOrEmpty, h3]
    · simp [Rule.check, hu, hk, strTruthy, h1, h2]
    · simp [Rule.check, getFormConfig_json_eval, h4]
    · simp [Rule.check, getFormConfig_json_eval, h4]
    · have hr : (getFormConfig B f).retrieval_method = some "none" := by
        rw [getFormConfig_retrieval_method, h5]; rfl
      simp only [Rule.check, hr, Bool.and_eq_false_imp, decide_eq_true_eq]
      intro h
      exact absurd h (by decide)

/-- C3, on concrete forms: an API model with both credentials is accepted, and the same
form with the API key emptied is rejected with the English need-API message. -/
theorem api_form_needs_credentials_witness :
    validateConfig "en" (getFormConfig digitsHost apiForm) =
      .ok (withJudgeDefault (getFormConfig digitsHost apiForm)) ∧
    ∃ msg, validateConfig "en" (getFormConfig digitsHost { apiForm with apiKey := "" }) =
      .error msg :=
  ⟨(api_form_needs_credentials digitsHost "en" apiForm rfl).2
      (by decide) (by decide) (by decide) rfl rfl,
   (api_form_needs_credentials digitsHost "en" { apiForm with apiKey := "" } rfl).1
      (Or.inr rfl)⟩

theorem retrievalSection_embed_irrelevant (B : Builtins) (f : FormState) (n u k : String)
    (h : ¬(f.retrievalSwitch = true ∧ f.retrievalMethod = "dense-api")) (c : Config) :
    retrievalSection B { f with embedModelName := n, embedApiUrl := u, embedApiKey := k } c =
      retrievalSection B f c := by
  rw [retrievalSection_pipe, retrievalSection_pipe]
  dsimp only
  by_cases hs : f.retrievalSwitch = true
  · have ha : ¬f.retrievalMethod = "dense-api" := fun ha => h ⟨hs, ha⟩
    simp only [ha, ↓reduceIte]
  · rw [if_neg hs, if_neg hs]

theorem getFormConfig_embed_irrelevant (B : Builtins) (f : FormState) (n u k : String)
    (h : ¬(f.retrievalSwitch = true ∧ f.retrievalMethod = "dense-api")) :
    getFormConfig B { f with embedModelName := n, embedApiUrl := u, embedApiKey := k } =
      getFormConfig B f := by
  have e : getFormConfig B { f with embedModelName := n, embedApiUrl := u, embedApiKey := k } =
      apiSection f (judgeSection B f (retrievalSection B
        { f with embedModelName := n, embedApiUrl := u, embedApiKey := k }
        (jsonEvalSection f (baseConfig B f)))) := rfl
  rw [e, retrievalSection_embed_irrelevant B f n u k h]
  rfl

/-- C4. With retrieval enabled and method exactly `dense-api`, the request built from the
form is rejected whenever the embedding API URL, the embedding API key or the embedding
model name field is empty or white space only. With any other method, or with retrieval
disabled, the need-embedding-API rule is not violated and the request, hence the outcome
of validation, is the same whatever the three embedding fields hold. -/
theorem embed_fields_checked_only_for_dense_api (B : Builtins) (lang : String)
    (f : FormState) :
    (f.retrievalSwitch = true → f.retrievalMethod = "dense-api" →
      (isBlank f.embedApiUrl = true ∨ isBlank f.embedApiKey = true ∨
        isBlank f.embedModelName = true) →
      ∃ msg, validateConfig lang (getFormConfig B f) = .error msg) ∧
    (¬(f.retrievalSwitch = true ∧ f.retrievalMethod = "dense-api") →
      ¬Rule.violated (getFormConfig B f) .needEmbedApi ∧
      ∀ n u k : String,
        validateConfig lang
            (getFormConfig B { f with embedModelName := n, embedApiUrl := u, embedApiKey := k }) =
          validateConfig lang (getFormConfig B f)) := by
  constructor
  · intro hs ha hb
    apply validateConfig_fails_of_check lang _ .needEmbedApi
    have hr : (getFormConfig B f).retrieval_method = some "dense-api" := by
      rw [getFormConfig_retrieval_method, hs, ha]; rfl
    simp only [Rule.check, hr, decide_True, Bool.true_and, Bool.or_eq_true, Bool.not_eq_true',
      strTruthy_eq_false_iff]
    rcases hb with hb | hb | hb
    · left; left; left
      rw [getFormConfig_embed_api_url, if_neg]
      rw [jsTrim_blank _ hb]
      exact fun h => h.2.2 rfl
    · left; right; left
      rw [getFormConfig_embed_api_key, if_neg]
      rw [jsTrim_blank _ hb]
      exact fun h => h.2.2 rfl
    · right; left
      rw [getFormConfig_embed_model_name, if_neg]
      rw [jsTrim_blank _ hb]
      exact fun h => h.2.2 rfl
  · intro h
    constructor
    · intro hv
      have hm := hv.1
      rw [getFormConfig_retrieval_method] at hm
      by_cases hs : f.retrievalSwitch = true
      · rw [if_pos hs] at hm
        by_cases he : f.retrievalMethod ≠ ""
        · rw [if_pos he] at hm
          exact h ⟨hs, Option.some.inj hm⟩
        · rw [if_neg he] at hm
          cases hm
      · rw [if_neg hs] at hm
        exact absurd hm (by decide)
    · intro n u k
      rw [getFormConfig_embed_irrelevant B f n u k h]

/-- C4, on concrete forms: retrieval by `dense-api` with a blank embedding key is
rejected; with a sparse method the need-embedding-API rule is not violated although
two embedding fields are blank, and filling them in changes nothing. -/
theorem embed_fields_checked_only_for_dense_api_witness :
    (∃ msg, validateConfig "en" (getFormConfig digitsHost denseApiForm) = .error msg) ∧
    (¬Rule.violated (getFormConfig digitsHost sparseForm) .needEmbedApi ∧
      ∀ n u k : String,
        validateConfig "en" (getFormConfig digitsHost
            { sparseForm with embedModelName := n, embedApiUrl := u, embedApiKey := k }) =
          validateConfig "en" (getFormConfig digitsHost sparseForm)) :=
  ⟨(embed_fields_checked_only_for_dense_api digitsHost "en" denseApiForm).1 rfl rfl
      (Or.inr (Or.inl (by decide))),
   (embed_fields_checked_only_for_dense_api digitsHost "en" sparseForm).2 (by decide)⟩

/-- C5. When the JSON-eval switch is on, the request built from the form has
`json_eval = true` and `task = "eval"`, whatever the task-type selector holds. -/
theorem json_eval_forces_task_eval (B : Builtins) (f : FormState)
    (h : f.jsonEvalSwitch = true) :
    (getFormConfig B f).json_eval = some true ∧ (getFormConfig B f).task = some "eval" := by
  rw [getFormConfig_json_eval, getFormConfig_task, h]
  exact ⟨rfl, rfl⟩

/-- C5, on a concrete form whose task selector says `all`. -/
theorem json_eval_forces_task_eval_witness :
    jsonForm.taskPhase = "all" ∧
    (getFormConfig digitsHost jsonForm).json_eval = some true ∧
    (getFormConfig digitsHost jsonForm).task = some "eval" :=
  ⟨rfl, json_eval_forces_task_eval digitsHost jsonForm rfl⟩

/-- C6. When the retrieval switch is off, the request built from the form has the key
`retrieval_method` with value `"none"` and has none of `retrieval_k`,
`retrieval_faiss_type`, `embed_batch_size`, `embed_model_name`, `embed_api_url`,
`embed_api_key`, whatever the retrieval fields hold. -/
theorem retrieval_off_is_explicit_none (B : Builtins) (f : FormState)
    (h : f.retrievalSwitch = false) :
    (getFormConfig B f).retrieval_method = some "none" ∧
    (getFormConfig B f).retrieval_k = none ∧
    (getFormConfig B f).retrieval_faiss_type = none ∧
    (getFormConfig B f).embed_batch_size = none ∧
    (getFormConfig B f).embed_model_name = none ∧
    (getFormConfig B f).embed_api_url = none ∧
    (getFormConfig B f).embed_api_key = none := by
  rw [getFormConfig_retrieval_method, getFormConfig_retrieval_k,
    getFormConfig_retrieval_faiss_type, getFormConfig_embed_batch_size,
    getFormConfig_embed_model_name, getFormConfig_embed_api_url, getFormConfig_embed_api_key, h]
  simp only [Bool.false_eq_true, false_and, ↓reduceIte, and_self]

/-- C6, on a concrete form whose retrieval fields are all filled in. -/
theorem retrieval_off_is_explicit_none_witness :
    retrievalOffForm.retrievalMethod = "dense-api" ∧
    (getFormConfig digitsHost retrievalOffForm).retrieval_method = some "none" ∧
    (getFormConfig digitsHost retrievalOffForm).retrieval_k = none ∧
    (getFormConfig digitsHost retrievalOffForm).retrieval_faiss_type = none ∧
    (getFormConfig digitsHost retrievalOffForm).embed_batch_size = none ∧
    (getFormConfig digitsHost retrievalOffForm).embed_model_name = none ∧
    (getFormConfig digitsHost retrievalOffForm).embed_api_url = none ∧
    (getFormConfig digitsHost retrievalOffForm).embed_api_key = none :=
  ⟨rfl, retrieval_off_is_explicit_none digitsHost retrievalOffForm rfl⟩

/-- C7. `validateConfig` fails if and only if the request violates at least one of the
listed rules: models absent or empty; datasets absent or empty; some model starts with
`api:` while `api_url` or `api_key` is missing or empty; `json_eval` is set while
`json_paths` is absent or empty, or while `task` is not `eval`; `retrieval_method` is
`dense-api` while `embed_api_url`, `embed_api_key` or `embed_model_name` is missing or
empty. A request violating none of them is accepted. -/
theorem validateConfig_fails_iff_rule_violated (lang : String) (c : Config) :
    ((∃ msg, validateConfig lang c = .error msg) ↔ ∃ r : Rule, r.violated c) ∧
    ((∀ r : Rule, ¬r.violated c) → validateConfig lang c = .ok (withJudgeDefault c)) := by
  constructor
  · rw [validateConfig_fails_iff]
    constructor
    · intro ⟨r, hr⟩
      exact ⟨r, (Rule.violated_iff_check c r).mpr hr⟩
    · intro ⟨r, hr⟩
      exact ⟨r, (Rule.violated_iff_check c r).mp hr⟩
  · intro h
    apply validateConfig_ok_of_none
    intro r
    cases hr : r.check c
    · rfl
    · exact absurd ((Rule.violated_iff_check c r).mpr hr) (h r)

/-- C7, on a concrete request: the request built from the local-model form violates no
rule and is accepted. -/
theorem validateConfig_fails_iff_rule_violated_witness :
    (∀ r : Rule, ¬r.violated (getFormConfig digitsHost localForm)) ∧
    validateConfig "en" (getFormConfig digitsHost localForm) =
      .ok (withJudgeDefault (getFormConfig digitsHost localForm)) :=
  have h : ∀ r : Rule, ¬r.violated (getFormConfig digitsHost localForm) := fun r hv =>
    absurd ((Rule.violated_iff_check _ r).mp hv) (by cases r <;> decide)
  ⟨h, (validateConfig_fails_iff_rule_violated "en" (getFormConfig digitsHost localForm)).2 h⟩

/-- C8. `validateConfig` stops at the first violated rule: for a request violating a rule
and none of the rules listed before it (need-model, need-dataset, need-API-credentials,
need-json-paths, json-task-must-be-eval, need-embedding-API), the error is that rule's
message, whichever later rules are violated too. In English and in Chinese the six
messages are pairwise distinct. -/
theorem validateConfig_reports_first_violated_rule :
    (∀ (lang : String) (c : Config) (r : Rule), r.violated c →
      (∀ r2 : Rule, r2.rank < r.rank → ¬r2.violated c) →
      validateConfig lang c = .error (t lang r.key)) ∧
    (∀ r1 r2 : Rule, r1 ≠ r2 →
      t "en" r1.key ≠ t "en" r2.key ∧ t "zh" r1.key ≠ t "zh" r2.key) := by
  constructor
  · intro lang c r hr hb
    apply validateConfig_error_of_first lang c r ((Rule.violated_iff_check c r).mp hr)
    intro r2 h2
    cases h : r2.check c
    · rfl
    · exact absurd ((Rule.violated_iff_check c r2).mpr h) (hb r2 h2)
  · intro r1 r2 h
    cases r1 <;> cases r2 <;> first | exact absurd rfl h | decide

/-- C8, on a concrete request that violates the need-dataset, need-API-credentials and
need-embedding-API rules at once: the error is the English need-dataset message. -/
theorem validateConfig_reports_first_violated_rule_witness :
    (Rule.needDataset.violated brokenRequest ∧ Rule.needApi.violated brokenRequest ∧
      Rule.needEmbedApi.violated brokenRequest) ∧
    validateConfig "en" brokenRequest = .error "Please select at least one dataset" :=
  ⟨⟨(Rule.violated_iff_check _ _).mpr (by decide), (Rule.violated_iff_check _ _).mpr (by decide),
      (Rule.violated_iff_check _ _).mpr (by decide)⟩,
   validateConfig_reports_first_violated_rule.1 "en" brokenRequest .needDataset
      ((Rule.violated_iff_check _ _).mpr (by decide))
      (fun r2 h2 hv => absurd ((Rule.violated_iff_check _ r2).mp hv)
        (by cases r2 <;> first | decide | (exact absurd h2 (by decide))))⟩

/-! ## Recent tasks: facts about the sort -/

theorem sortRecentFirst_sorted (time : String → Int) (tasks : List Task) :
    (sortRecentFirst time tasks).Pairwise (recentFirst time) :=
  List.sorted_insertionSort (recentFirst time) tasks

theorem sortRecentFirst_perm (time : String → Int) (tasks : List Task) :
    (sortRecentFirst time tasks).Perm tasks :=
  List.perm_insertionSort (recentFirst time) tasks

/-- C9. The list `loadRecentTasks` passes to the recent-tasks view has length
`min 5 n`; it is ordered by creation time, most recent first, and strictly so when
the creation times are distinct; together with the tasks it omits it is a
rearrangement of the input, so it contains only tasks of the input; and every omitted
task is no more recent than every task shown. Seven tasks with distinct creation times
give five tasks, strictly descending. -/
theorem loadRecentTasks_five_most_recent (time : String → Int) (tasks : List Task) :
    (loadRecentTasks time tasks).length = min 5 tasks.length ∧
    (loadRecentTasks time tasks).Pairwise
      (fun a b => time a.created_at ≥ time b.created_at) ∧
    ((tasks.map (fun x => time x.created_at)).Nodup →
      (loadRecentTasks time tasks).Pairwise
        (fun a b => time a.created_at > time b.created_at)) ∧
    (∀ x ∈ loadRecentTasks time tasks, x ∈ tasks) ∧
    (∃ omitted : List Task,
      (loadRecentTasks time tasks ++ omitted).Perm tasks ∧
      ∀ o ∈ omitted, ∀ x ∈ loadRecentTasks time tasks,
        time o.created_at ≤ time x.created_at) ∧
    (tasks.length = 7 → (tasks.map (fun x => time x.created_at)).Nodup →
      (loadRecentTasks time tasks).length = 5 ∧
      (loadRecentTasks time tasks).Pairwise
        (fun a b => time a.created_at > time b.created_at)) := by
  have hsorted := sortRecentFirst_sorted time tasks
  have hperm := sortRecentFirst_perm time tasks
  have hlen : (loadRecentTasks time tasks).length = min 5 tasks.length := by
    unfold loadRecentTasks
    rw [List.length_take, hperm.length_eq]
  have hge : (loadRecentTasks time tasks).Pairwise
      (fun a b => time a.created_at ≥ time b.created_at) := by
    unfold loadRecentTasks
    refine (hsorted.sublist (List.take_sublist 5 _)).imp ?_
    intro a b hab
    unfold recentFirst at hab
    omega
  have hstrict : (tasks.map (fun x => time x.created_at)).Nodup →
      (loadRecentTasks time tasks).Pairwise
        (fun a b => time a.created_at > time b.created_at) := by
    intro hnd
    have hnd2 : ((sortRecentFirst time tasks).map (fun x => time x.created_at)).Nodup :=
      (hperm.map _).nodup_iff.mpr hnd
    have hne : (sortRecentFirst time tasks).Pairwise
        (fun a b => time a.created_at ≠ time b.created_at) := by
      unfold List.Nodup at hnd2
      rw [List.pairwise_map] at hnd2
      exact hnd2
    have hne5 := hne.sublist (List.take_sublist 5 _)
    refine (hge.and hne5).imp ?_
    intro a b hab
    have h1 := hab.1
    have h2 := hab.2
    omega
  refine ⟨hlen, hge, hstrict, ?_, ?_, ?_⟩
  · intro x hx
    unfold loadRecentTasks at hx
    exact hperm.subset (List.mem_of_mem_take hx)
  · refine ⟨(sortRecentFirst time tasks).drop 5, ?_, ?_⟩
    · unfold loadRecentTasks
      rw [List.take_append_drop]
      exact hperm
    · intro o ho x hx
      unfold loadRecentTasks at hx
      have hsplit := hsorted
      rw [← List.take_append_drop 5 (sortRecentFirst time tasks), List.pairwise_append] at hsplit
      have h := hsplit.2.2 x hx o ho
      unfold recentFirst at h
      omega
  · intro h7 hnd
    refine ⟨?_, hstrict hnd⟩
    rw [hlen, h7]
    rfl

/-- C9, on seven concrete tasks listed out of order: the five most recent come out,
most recent first. -/
theorem loadRecentTasks_five_most_recent_witness :
    (sevenTasks.length = 7 ∧ (sevenTasks.map (fun x => sevenTimes x.created_at)).Nodup) ∧
    ((loadRecentTasks sevenTimes sevenTasks).length = 5 ∧
      (loadRecentTasks sevenTimes sevenTasks).Pairwise
        (fun a b => sevenTimes a.created_at > sevenTimes b.created_at)) ∧
    (loadRecentTasks sevenTimes sevenTasks).map (fun x => x.id) =
      ["task-g", "task-f", "task-e", "task-d", "task-c"] :=
  ⟨⟨rfl, by decide⟩,
   (loadRecentTasks_five_most_recent sevenTimes sevenTasks).2.2.2.2.2 rfl (by decide),
   by decide⟩

/-! ## Score badge: facts -/

theorem getScoreClass_cases (s : JSNum) :
    (s.ge lit_0_8 = true ∧ getScoreClass s = "score-high") ∨
    (s.ge lit_0_8 = false ∧ s.ge lit_0_6 = true ∧ getScoreClass s = "score-medium") ∨
    (s.ge lit_0_8 = false ∧ s.ge lit_0_6 = false ∧ getScoreClass s = "score-low") := by
  unfold getScoreClass
  cases h8 : s.ge lit_0_8
  · cases h6 : s.ge lit_0_6
    · right; right
      exact ⟨rfl, rfl, rfl⟩
    · right; left
      exact ⟨rfl, rfl, rfl⟩
  · left
    exact ⟨rfl, rfl⟩

theorem lit_0_6_lt_lit_0_8 :
    ((5404319552844595 / 9007199254740992 : ℚ) < 3602879701896397 / 4503599627370496) := by
  norm_num

theorem JSNum.lt_eq_not_ge (s b : JSNum) (hs : s ≠ .nan) (hb : b ≠ .nan) :
    s.lt b = !s.ge b := by
  cases s <;> cases b <;> simp_all [JSNum.lt, JSNum.ge, JSNum.lt?]

theorem JSNum.ge_mono (s : JSNum) (h : s.ge lit_0_8 = true) : s.ge lit_0_6 = true := by
  cases s with
  | fin q =>
    simp only [JSNum.ge, JSNum.lt?, lit_0_8, lit_0_6, Bool.not_eq_true', decide_eq_false_iff_not,
      not_lt] at h ⊢
    exact le_trans (le_of_lt lit_0_6_lt_lit_0_8) h
  | posInf => rfl
  | negInf => simp [JSNum.ge, JSNum.lt?, lit_0_8] at h
  | nan => simp [JSNum.ge, JSNum.lt?, lit_0_8] at h

theorem getScoreClass_nan : getScoreClass .nan = "score-low" := by decide

/-- C10. For every numeric score `s` (a JSON payload carries no `NaN`),
`getScoreClass s` is the high class iff `s >= 0.8`, the medium class iff
`0.6 <= s < 0.8`, and the low class iff `s < 0.6`; exactly one of the three
conditions holds, and exactly one of the three classes is returned. -/
theorem getScoreClass_thresholds (s : JSNum) (hs : s ≠ .nan) :
    (getScoreClass s = "score-high" ↔ s.ge lit_0_8 = true) ∧
    (getScoreClass s = "score-medium" ↔ (s.ge lit_0_6 = true ∧ s.lt lit_0_8 = true)) ∧
    (getScoreClass s = "score-low" ↔ s.lt lit_0_6 = true) ∧
    ((s.ge lit_0_8 = true ∧ ¬(s.ge lit_0_6 = true ∧ s.lt lit_0_8 = true) ∧
        ¬s.lt lit_0_6 = true) ∨
      (¬s.ge lit_0_8 = true ∧ (s.ge lit_0_6 = true ∧ s.lt lit_0_8 = true) ∧
        ¬s.lt lit_0_6 = true) ∨
      (¬s.ge lit_0_8 = true ∧ ¬(s.ge lit_0_6 = true ∧ s.lt lit_0_8 = true) ∧
        s.lt lit_0_6 = true)) := by
  have h8 : s.lt lit_0_8 = !s.ge lit_0_8 := JSNum.lt_eq_not_ge s _ hs (by decide)
  have h6 : s.lt lit_0_6 = !s.ge lit_0_6 := JSNum.lt_eq_not_ge s _ hs (by decide)
  have hmono := JSNum.ge_mono s
  have d1 : ("score-high" : String) ≠ "score-medium" := by decide
  have d2 : ("score-high" : String) ≠ "score-low" := by decide
  have d3 : ("score-medium" : String) ≠ "score-low" := by decide
  rw [h8, h6]
  rcases getScoreClass_cases s with ⟨a, c⟩ | ⟨a, b, c⟩ | ⟨a, b, c⟩
  · have b := hmono a
    rw [c, a, b]
    simp [d1, d2]
  · rw [c, a, b]
    simp [d1.symm, d3]
  · rw [c, a, b]
    simp [d2.symm, d3.symm]

theorem score_0_95_ge : score_0_95.ge lit_0_8 = true := by
  simp only [JSNum.ge, JSNum.lt?, score_0_95, lit_0_8]
  norm_num

theorem score_0_7_between : score_0_7.ge lit_0_6 = true ∧ score_0_7.lt lit_0_8 = true := by
  simp only [JSNum.ge, JSNum.lt, JSNum.lt?, score_0_7, lit_0_6, lit_0_8]
  norm_num

theorem score_0_4_lt : score_0_4.lt lit_0_6 = true := by
  simp only [JSNum.lt, JSNum.lt?, score_0_4, lit_0_6]
  norm_num

theorem lit_0_8_ge : lit_0_8.ge lit_0_8 = true := by
  simp only [JSNum.ge, JSNum.lt?, lit_0_8]
  norm_num

theorem lit_0_6_between : lit_0_6.ge lit_0_6 = true ∧ lit_0_6.lt lit_0_8 = true := by
  simp only [JSNum.ge, JSNum.lt, JSNum.lt?, lit_0_6, lit_0_8]
  norm_num

/-- C10, on the scores of the specification: `0.95` is high, `0.7` is medium, `0.4` is
low, and the boundaries `0.8` and `0.6` are high and medium. -/
theorem getScoreClass_thresholds_witness :
    getScoreClass score_0_95 = "score-high" ∧
    getScoreClass score_0_7 = "score-medium" ∧
    getScoreClass score_0_4 = "score-low" ∧
    getScoreClass lit_0_8 = "score-high" ∧
    getScoreClass lit_0_6 = "score-medium" :=
  ⟨(getScoreClass_thresholds score_0_95 (by decide)).1.mpr score_0_95_ge,
   (getScoreClass_thresholds score_0_7 (by decide)).2.1.mpr score_0_7_between,
   (getScoreClass_thresholds score_0_4 (by decide)).2.2.1.mpr score_0_4_lt,
   (getScoreClass_thresholds lit_0_8 (by decide)).1.mpr lit_0_8_ge,
   (getScoreClass_thresholds lit_0_6 (by decide)).2.1.mpr lit_0_6_between⟩

/-! ## Grouping of metric keys -/

theorem setProp_fresh (obj : JSObject) (k : String) (v : MetricValue)
    (hk : k ≠ "__proto__") (hfresh : ∀ p ∈ obj, p.1 ≠ k) :
    setProp obj k v = obj ++ [(k, v)] := by
  unfold setProp
  rw [if_neg hk]
  have hany : obj.any (fun p => p.1 == k) = false := by
    rw [List.any_eq_false]
    intro p hp
    simpa using hfresh p hp
  rw [hany]
  rfl

theorem setProp_proto (obj : JSObject) (v : MetricValue) : setProp obj "__proto__" v = obj := by
  unfold setProp
  rw [if_pos rfl]

theorem groupOf_proto : groupOf "__proto__" = .other := by decide

/-- The entries of `obj` that the loop stores in the group `n`: those whose key belongs
to `n` by name, the key `__proto__` excepted. -/
theorem groupStep_get (g : Groups) (kv : String × MetricValue) (n : GroupName) :
    (groupStep g kv).get n =
      if groupOf kv.1 = n then setProp (g.get n) kv.1 kv.2 else g.get n := by
  unfold groupStep groupOf
  by_cases h1 : kv.1 = "score"
  · rw [if_pos h1, if_pos h1]
    cases n <;> simp [Groups.get]
  · rw [if_neg h1, if_neg h1]
    by_cases h2 : startsWith kv.1 "judge_" = true
    · rw [if_pos h2, if_pos h2]
      cases n <;> simp [Groups.get]
    · rw [if_neg h2, if_neg h2]
      by_cases h3 : startsWith kv.1 "classic_" = true
      · rw [if_pos h3, if_pos h3]
        cases n <;> simp [Groups.get]
      · rw [if_neg h3, if_neg h3]
        cases n <;> simp [Groups.get]

theorem foldl_groupStep_get (rest done : JSObject) (g : Groups) (n : GroupName)
    (hnd : ((done ++ rest).map Prod.fst).Nodup)
    (hg : g.get n = done.filter (fun p => decide (groupOf p.1 = n ∧ p.1 ≠ "__proto__"))) :
    (rest.foldl groupStep g).get n =
      (done ++ rest).filter (fun p => decide (groupOf p.1 = n ∧ p.1 ≠ "__proto__")) := by
  induction rest generalizing done g with
  | nil => simpa using hg
  | cons kv rest ih =>
    rw [List.foldl_cons]
    have hnd2 : (((done ++ [kv]) ++ rest).map Prod.fst).Nodup := by
      simpa using hnd
    have happ : done ++ kv :: rest = (done ++ [kv]) ++ rest := by simp
    rw [happ]
    apply ih (done ++ [kv]) (groupStep g kv) hnd2
    rw [groupStep_get, List.filter_append, hg]
    have hfresh : ∀ p ∈ done, p.1 ≠ kv.1 := by
      intro p hp heq
      rw [List.map_append, List.nodup_append] at hnd
      have hdisj := hnd.2.2
      exact hdisj (List.mem_map_of_mem Prod.fst hp)
        (by rw [heq]; simp)
    by_cases hn : groupOf kv.1 = n
    · rw [if_pos hn]
      by_cases hp : kv.1 = "__proto__"
      · rw [hp, setProp_proto]
        simp [hp]
      · rw [setProp_fresh _ _ _ hp]
        · simp [hn, hp]
        · intro p hp2
          exact hfresh p (List.mem_of_mem_filter hp2)
    · rw [if_neg hn]
      simp [hn]

/-- For a record with distinct keys, each group holds, in input order and with their
values, exactly the entries whose key belongs to it by name, the key `__proto__`
excepted: that key is stored in no group. -/
theorem groupMetricKeys_get (resultObj : JSObject) (n : GroupName)
    (hnd : (resultObj.map Prod.fst).Nodup) :
    (groupMetricKeys resultObj).get n =
      resultObj.filter (fun p => decide (groupOf p.1 = n ∧ p.1 ≠ "__proto__")) := by
  have h := foldl_groupStep_get resultObj [] ⟨[], [], [], []⟩ n (by simpa using hnd)
    (by cases n <;> rfl)
  simpa [groupMetricKeys] using h

/-- Every entry whose key is not `__proto__` is stored, with its value, in the group its
key names and in no other group, and no group holds an entry that is not in the input. -/
theorem groupMetricKeys_partition (resultObj : JSObject)
    (hnd : (resultObj.map Prod.fst).Nodup) :
    (∀ k v, (k, v) ∈ resultObj → k ≠ "__proto__" → ∀ n : GroupName,
      ((k, v) ∈ (groupMetricKeys resultObj).get n ↔ n = groupOf k)) ∧
    (∀ n : GroupName, ∀ p ∈ (groupMetricKeys resultObj).get n, p ∈ resultObj) := by
  constructor
  · intro k v hmem hk n
    rw [groupMetricKeys_get resultObj n hnd, List.mem_filter]
    simp only [decide_eq_true_eq]
    constructor
    · intro h
      exact h.2.1.symm
    · intro h
      exact ⟨hmem, h.symm, hk⟩
  · intro n p hp
    rw [groupMetricKeys_get resultObj n hnd] at hp
    exact List.mem_of_mem_filter hp

/-- C1. The grouping is not total: on the record `{"score": 1, "__proto__": 2}` the key
`__proto__` is stored in none of the four groups, although it belongs to the residual
group by name. -/
theorem groupMetricKeys_drops_proto_key :
    groupOf "__proto__" = .other ∧
    groupMetricKeys [("score", .num (.fin 1)), ("__proto__", .num (.fin 2))] =
      { primary := [("score", .num (.fin 1))], judge := [], classic := [], other := [] } := by
  decide

/-! ## The remaining keys of the judge block -/

theorem getFormConfig_judge_tensor_parallel (B : Builtins) (f : FormState) :
    (getFormConfig B f).judge_tensor_parallel =
      if f.judgeSwitch then
        if !(B.parseInt f.judgeTensorParallel).isNaN then some (B.parseInt f.judgeTensorParallel) else none
      else none := by
  simp only [getFormConfig, apiSection, judgeSection_pipe, retrievalSection_pipe,
    jsonEvalSection_pipe, baseConfig_pipe, assignIf_apply Config.judge_tensor_parallel,
    apply_ite Config.judge_tensor_parallel, ite_self]

theorem getFormConfig_judge_temperature (B : Builtins) (f : FormState) :
    (getFormConfig B f).judge_temperature =
      if f.judgeSwitch then
        if !(B.parseFloat f.judgeTemperature).isNaN then some (B.parseFloat f.judgeTemperature) else none
      else none := by
  simp only [getFormConfig, apiSection, judgeSection_pipe, retrievalSection_pipe,
    jsonEvalSection_pipe, baseConfig_pipe, assignIf_apply Config.judge_temperature,
    apply_ite Config.judge_temperature, ite_self]

theorem getFormConfig_judge_top_p (B : Builtins) (f : FormState) :
    (getFormConfig B f).judge_top_p =
      if f.judgeSwitch then
        if !(B.parseFloat f.judgeTopP).isNaN then some (B.parseFloat f.judgeTopP) else none
      else none := by
  simp only [getFormConfig, apiSection, judgeSection_pipe, retrievalSection_pipe,
    jsonEvalSection_pipe, baseConfig_pipe, assignIf_apply Config.judge_top_p,
    apply_ite Config.judge_top_p, ite_self]

theorem getFormConfig_judge_max_tokens (B : Builtins) (f : FormState) :
    (getFormConfig B f).judge_max_tokens =
      if f.judgeSwitch then
        if !(B.parseInt f.judgeMaxTokens).isNaN then some (B.parseInt f.judgeMaxTokens) else none
      else none := by
  simp only [getFormConfig, apiSection, judgeSection_pipe, retrievalSection_pipe,
    jsonEvalSection_pipe, baseConfig_pipe, assignIf_apply Config.judge_max_tokens,
    apply_ite Config.judge_max_tokens, ite_self]

theorem getFormConfig_judge_repetition_penalty (B : Builtins) (f : FormState) :
    (getFormConfig B f).judge_repetition_penalty =
      if f.judgeSwitch then
        if !(B.parseFloat f.judgeRepPenalty).isNaN then some (B.parseFloat f.judgeRepPenalty) else none
      else none := by
  simp only [getFormConfig, apiSection, judgeSection_pipe, retrievalSection_pipe,
    jsonEvalSection_pipe, baseConfig_pipe, assignIf_apply Config.judge_repetition_penalty,
    apply_ite Config.judge_repetition_penalty, ite_self]

theorem getFormConfig_judge_accelerator (B : Builtins) (f : FormState) :
    (getFormConfig B f).judge_accelerator =
      if f.judgeSwitch then
        if f.judgeAccelerator ≠ "" then some (f.judgeAccelerator) else none
      else none := by
  simp only [getFormConfig, apiSection, judgeSection_pipe, retrievalSection_pipe,
    jsonEvalSection_pipe, baseConfig_pipe, assignIf_apply Config.judge_accelerator,
    apply_ite Config.judge_accelerator, ite_self]

theorem getFormConfig_judge_api_url (B : Builtins) (f : FormState) :
    (getFormConfig B f).judge_api_url =
      if f.judgeSwitch then
        if jsTrim f.judgeApiUrl ≠ "" then some (jsTrim f.judgeApiUrl) else none
      else none := by
  simp only [getFormConfig, apiSection, judgeSection_pipe, retrievalSection_pipe,
    jsonEvalSection_pipe, baseConfig_pipe, assignIf_apply Config.judge_api_url,
    apply_ite Config.judge_api_url, ite_self]

theorem getFormConfig_judge_api_key (B : Builtins) (f : FormState) :
    (getFormConfig B f).judge_api_key =
      if f.judgeSwitch then
        if jsTrim f.judgeApiKey ≠ "" then some (jsTrim f.judgeApiKey) else none
      else none := by
  simp only [getFormConfig, apiSection, judgeSection_pipe, retrievalSection_pipe,
    jsonEvalSection_pipe, baseConfig_pipe, assignIf_apply Config.judge_api_key,
    apply_ite Config.judge_api_key, ite_self]

/-! ## Claims on the keys of the built request -/

/-- C16, as stated, fails on the retrieval block: with the retrieval toggle off the
request built from the local-model form still has the key `retrieval_method`. -/
theorem retrieval_key_present_with_toggle_off :
    localForm.retrievalSwitch = false ∧
    (getFormConfig digitsHost localForm).retrieval_method.isSome = true := by
  decide

/-- C16, amended. With the JSON-eval toggle off the request has none of `json_eval`,
`json_paths`, `json_model_label` and its task is the value of the task-type selector;
with the judge toggle off it has neither `judge` nor any `judge_*` key; with the
retrieval toggle off it has none of `retrieval_k`, `retrieval_faiss_type`,
`embed_batch_size`, `embed_model_name`, `embed_api_url`, `embed_api_key`, while
`retrieval_method` is present with value `"none"`. All this holds whatever the fields of
the blocks hold. -/
theorem optional_blocks_follow_their_toggles (B : Builtins) (f : FormState) :
    (f.jsonEvalSwitch = false →
      (getFormConfig B f).json_eval = none ∧ (getFormConfig B f).json_paths = none ∧
      (getFormConfig B f).json_model_label = none ∧
      (getFormConfig B f).task = some f.taskPhase) ∧
    (f.judgeSwitch = false →
      (getFormConfig B f).judge = none ∧ (getFormConfig B f).judge_batch_size = none ∧
      (getFormConfig B f).judge_tensor_parallel = none ∧
      (getFormConfig B f).judge_temperature = none ∧ (getFormConfig B f).judge_top_p = none ∧
      (getFormConfig B f).judge_max_tokens = none ∧
      (getFormConfig B f).judge_repetition_penalty = none ∧
      (getFormConfig B f).judge_accelerator = none ∧
      (getFormConfig B f).judge_api_url = none ∧ (getFormConfig B f).judge_api_key = none) ∧
    (f.retrievalSwitch = false →
      (getFormConfig B f).retrieval_k = none ∧
      (getFormConfig B f).retrieval_faiss_type = none ∧
      (getFormConfig B f).embed_batch_size = none ∧
      (getFormConfig B f).embed_model_name = none ∧
      (getFormConfig B f).embed_api_url = none ∧ (getFormConfig B f).embed_api_key = none ∧
      (getFormConfig B f).retrieval_method = some "none") := by
  refine ⟨?_, ?_, ?_⟩
  · intro h
    rw [getFormConfig_json_eval, getFormConfig_json_paths, getFormConfig_json_model_label,
      getFormConfig_task, h]
    exact ⟨rfl, rfl, rfl, rfl⟩
  · intro h
    rw [getFormConfig_judge, getFormConfig_judge_batch_size, getFormConfig_judge_tensor_parallel,
      getFormConfig_judge_temperature, getFormConfig_judge_top_p, getFormConfig_judge_max_tokens,
      getFormConfig_judge_repetition_penalty, getFormConfig_judge_accelerator,
      getFormConfig_judge_api_url, getFormConfig_judge_api_key, h]
    exact ⟨rfl, rfl, rfl, rfl, rfl, rfl, rfl, rfl, rfl, rfl⟩
  · intro h
    rw [getFormConfig_retrieval_method, getFormConfig_retrieval_k,
      getFormConfig_retrieval_faiss_type, getFormConfig_embed_batch_size,
      getFormConfig_embed_model_name, getFormConfig_embed_api_url, getFormConfig_embed_api_key, h]
    simp only [Bool.false_eq_true, false_and, ↓reduceIte, and_self]

/-- C16, amended, on a concrete form: JSON-eval and judge are off while their fields are
filled in; the request has none of their keys and keeps the task `all`. -/
theorem optional_blocks_follow_their_toggles_witness :
    ((getFormConfig digitsHost
        { localForm with jsonPaths := "DatasetA=/tmp/a.json", jsonModelLabel := "x" }).json_eval =
        none ∧
      (getFormConfig digitsHost
        { localForm with jsonPaths := "DatasetA=/tmp/a.json", jsonModelLabel := "x" }).json_paths =
        none ∧
      (getFormConfig digitsHost
        { localForm with jsonPaths := "DatasetA=/tmp/a.json",
                         jsonModelLabel := "x" }).json_model_label = none ∧
      (getFormConfig digitsHost
        { localForm with jsonPaths := "DatasetA=/tmp/a.json", jsonModelLabel := "x" }).task =
        some "all") ∧
    (getFormConfig digitsHost
        { localForm with judgeModelSpec := "hf:judge", judgeBatchSize := "4" }).judge = none :=
  ⟨(optional_blocks_follow_their_toggles digitsHost
      { localForm with jsonPaths := "DatasetA=/tmp/a.json", jsonModelLabel := "x" }).1 rfl,
   ((optional_blocks_follow_their_toggles digitsHost
      { localForm with judgeModelSpec := "hf:judge", judgeBatchSize := "4" }).2.1 rfl).1⟩

/-- C17. With retrieval enabled, the request has `retrieval_faiss_type` or
`embed_batch_size` only if the retrieval method starts with `dense`, and has
`embed_model_name`, `embed_api_url` or `embed_api_key` only if the method is exactly
`dense-api`; for a method that does not start with `dense` none of the five keys is
present, whatever their fields hold. -/
theorem dense_keys_only_for_dense_methods (B : Builtins) (f : FormState)
    (hs : f.retrievalSwitch = true) :
    (((getFormConfig B f).retrieval_faiss_type.isSome = true ∨
        (getFormConfig B f).embed_batch_size.isSome = true) →
      startsWith f.retrievalMethod "dense" = true) ∧
    (((getFormConfig B f).embed_model_name.isSome = true ∨
        (getFormConfig B f).embed_api_url.isSome = true ∨
        (getFormConfig B f).embed_api_key.isSome = true) →
      f.retrievalMethod = "dense-api") ∧
    (startsWith f.retrievalMethod "dense" = false →
      (getFormConfig B f).retrieval_faiss_type = none ∧
      (getFormConfig B f).embed_batch_size = none ∧
      (getFormConfig B f).embed_model_name = none ∧
      (getFormConfig B f).embed_api_url = none ∧
      (getFormConfig B f).embed_api_key = none) := by
  have notApi : ∀ x : Prop, ¬f.retrievalMethod = "dense-api" →
      ¬(f.retrievalSwitch = true ∧ f.retrievalMethod = "dense-api" ∧ x) :=
    fun _ ha h => ha h.2.1
  rw [getFormConfig_retrieval_faiss_type, getFormConfig_embed_batch_size,
    getFormConfig_embed_model_name, getFormConfig_embed_api_url, getFormConfig_embed_api_key,
    if_pos hs, if_pos hs]
  refine ⟨?_, ?_, ?_⟩
  · intro h
    by_contra hnd
    have hd : ¬(f.retrievalMethod ≠ "" ∧ startsWith f.retrievalMethod "dense" = true) :=
      fun h2 => hnd h2.2
    rw [if_neg hd, if_neg hd] at h
    simp at h
  · intro h
    by_contra ha
    rw [if_neg (notApi _ ha), if_neg (notApi _ ha), if_neg (notApi _ ha)] at h
    simp at h
  · intro hd
    have hnd : ¬(f.retrievalMethod ≠ "" ∧ startsWith f.retrievalMethod "dense" = true) := by
      intro h
      rw [hd] at h
      exact absurd h.2 (by decide)
    have ha : ¬f.retrievalMethod = "dense-api" := by
      intro h
      rw [h] at hd
      exact absurd hd (by decide)
    rw [if_neg hnd, if_neg hnd, if_neg (notApi _ ha), if_neg (notApi _ ha),
      if_neg (notApi _ ha)]
    exact ⟨rfl, rfl, rfl, rfl, rfl⟩

/-- C17, on a concrete form: a sparse method with the embedding fields filled in gives
none of the five keys. -/
theorem dense_keys_only_for_dense_methods_witness :
    sparseForm.embedModelName = "embed-1" ∧
    ((getFormConfig digitsHost sparseForm).retrieval_faiss_type = none ∧
      (getFormConfig digitsHost sparseForm).embed_batch_size = none ∧
      (getFormConfig digitsHost sparseForm).embed_model_name = none ∧
      (getFormConfig digitsHost sparseForm).embed_api_url = none ∧
      (getFormConfig digitsHost sparseForm).embed_api_key = none) :=
  ⟨rfl, (dense_keys_only_for_dense_methods digitsHost sparseForm rfl).2.2 (by decide)⟩

/-- C18. The `models` of the built request is `["api:" + p]` when the model type is
`api`, `["hf:" + p]` when it is `hf`, and `[p]` for any other model type, `p` being the
model path; `api_url` and `api_key` are present if and only if the model type is `api`. -/
theorem models_and_api_keys_follow_model_type (B : Builtins) (f : FormState) :
    (f.modelType = "api" → (getFormConfig B f).models = some ["api:" ++ f.modelPath]) ∧
    (f.modelType = "hf" → (getFormConfig B f).models = some ["hf:" ++ f.modelPath]) ∧
    (f.modelType ≠ "api" → f.modelType ≠ "hf" →
      (getFormConfig B f).models = some [f.modelPath]) ∧
    ((getFormConfig B f).api_url.isSome = true ↔ f.modelType = "api") ∧
    ((getFormConfig B f).api_key.isSome = true ↔ f.modelType = "api") := by
  rw [getFormConfig_models, getFormConfig_api_url, getFormConfig_api_key]
  refine ⟨?_, ?_, ?_, ?_, ?_⟩
  · intro h
    rw [if_pos h]
  · intro h
    have hne : ¬f.modelType = "api" := by
      rw [h]
      decide
    rw [if_neg hne, if_pos h]
  · intro h1 h2
    rw [if_neg h1, if_neg h2]
  · by_cases h : f.modelType = "api"
    · rw [if_pos h]
      simp [h]
    · rw [if_neg h]
      simp [h]
  · by_cases h : f.modelType = "api"
    · rw [if_pos h]
      simp [h]
    · rw [if_neg h]
      simp [h]

/-- C18, on concrete forms: an API model, a Hugging Face model and a local path. -/
theorem models_and_api_keys_follow_model_type_witness :
    (getFormConfig digitsHost apiForm).models = some ["api:gpt-x"] ∧
    (getFormConfig digitsHost { localForm with modelType := "hf" }).models =
      some ["hf:local/path"] ∧
    (getFormConfig digitsHost localForm).models = some ["local/path"] :=
  ⟨(models_and_api_keys_follow_model_type digitsHost apiForm).1 rfl,
   (models_and_api_keys_follow_model_type digitsHost { localForm with modelType := "hf" }).2.1
      rfl,
   (models_and_api_keys_follow_model_type digitsHost localForm).2.2.1 (by decide) (by decide)⟩

/-! ## Results view: the score badge and the cards -/

theorem scoreClassOf_undefined (H : RenderHost) : scoreClassOf H none = "score-low" := by
  unfold scoreClassOf scoreToNumber
  exact getScoreClass_nan

theorem scoreBadge_ok_of_not_string (lang : String) (H : RenderHost)
    (primaryScore : Option MetricValue) (h : ∀ s, primaryScore ≠ some (.str s)) :
    ∃ m, scoreBadge lang H primaryScore = .ok m := by
  unfold scoreBadge
  cases primaryScore with
  | none => exact ⟨_, rfl⟩
  | some v =>
    cases v with
    | num n => exact ⟨_, rfl⟩
    | str s => exact absurd rfl (h s)

theorem scoreBadge_error_of_string (lang : String) (H : RenderHost) (s : String) :
    scoreBadge lang H (some (.str s)) =
      .error "TypeError: primaryScore.toFixed is not a function" := rfl

theorem renderCard_ok_of_not_string (lang : String) (H : RenderHost) (taskId : String)
    (result : JSObject) (h : ∀ s, result.lookup "score" ≠ some (.str s)) :
    ∃ m, renderCard lang H taskId result = .ok m := by
  obtain ⟨b, hb⟩ := scoreBadge_ok_of_not_string lang H (result.lookup "score") h
  unfold renderCard
  dsimp only
  rw [hb]
  exact ⟨_, rfl⟩

theorem renderCards_ok (lang : String) (H : RenderHost) (modelResults : ModelResults)
    (h : ∀ entry ∈ modelResults, ∀ s, entry.2.lookup "score" ≠ some (.str s))
    (content : String) :
    ∃ m, renderCards lang H content modelResults = .ok m := by
  induction modelResults generalizing content with
  | nil => exact ⟨content, rfl⟩
  | cons entry rest ih =>
    obtain ⟨card, hcard⟩ :=
      renderCard_ok_of_not_string lang H entry.1 entry.2 (h entry (List.mem_cons_self _ _))
    have hrest := ih (fun e he => h e (List.mem_cons_of_mem _ he)) (content ++ card)
    unfold renderCards at hrest ⊢
    rw [List.foldlM_cons, hcard]
    exact hrest

theorem renderModels_ok (lang : String) (H : RenderHost) (results : Results)
    (h : ∀ model ∈ results, ∀ entry ∈ model.2, ∀ s, entry.2.lookup "score" ≠ some (.str s))
    (content : String) :
    ∃ m, results.foldlM (renderModel lang H) content = .ok m := by
  induction results generalizing content with
  | nil => exact ⟨content, rfl⟩
  | cons model rest ih =>
    obtain ⟨cards, hcards⟩ := renderCards_ok lang H model.2 (h model (List.mem_cons_self _ _))
      (content ++ "<div class=\"col-12 mb-4\"><h5>" ++ model.1 ++ "</h5>")
    have hrest := ih (fun e he => h e (List.mem_cons_of_mem _ he)) (cards ++ "</div>")
    have hstep : renderModel lang H content model = .ok (cards ++ "</div>") := by
      unfold renderModel
      dsimp only
      rw [hcards]
      rfl
    rw [List.foldlM_cons, hstep]
    exact hrest

/-- Rendering succeeds on every results mapping in which no record has a string under
the key `score`. -/
theorem renderResultsContent_ok_of_no_string_score (lang : String) (H : RenderHost)
    (results : Option Results)
    (h : ∀ model ∈ results.getD [], ∀ entry ∈ model.2, ∀ s,
      entry.2.lookup "score" ≠ some (.str s)) :
    ∃ m, renderResultsContent lang H results = .ok m := by
  unfold renderResultsContent
  by_cases he : resultsEmpty results = true
  · rw [if_pos he]
    exact ⟨_, rfl⟩
  · rw [if_neg he]
    obtain ⟨content, hcontent⟩ := renderModels_ok lang H (results.getD []) h "<div class=\"row\">"
    rw [hcontent]
    exact ⟨_, rfl⟩

set_option maxRecDepth 20000 in
/-- The whole markup for the results `{"model-a": {"subtask-1": {"accuracy": "high"}}}`,
a record without a score. -/
theorem renderResultsContent_noScoreResults (H : RenderHost) :
    renderResultsContent "en" H (some noScoreResults) =
      .ok "<div class=\"row\"><div class=\"col-12 mb-4\"><h5>model-a</h5>\n                    <div class=\"card mb-3\">\n                      <div class=\"card-header d-flex justify-content-between align-items-center\">\n                        <span><code>subtask-1</code></span>\n                        <span class=\"score-badge score-low\">N/A</span>\n                      </div>\n                      <div class=\"card-body\">\n                        \n                        \n                        \n                        \n                <div class=\"mb-2\">\n                    <strong>Other</strong><br>\n                    <small class=\"text-muted\">accuracy: high</small>\n                </div>\n            \n                      </div>\n                    </div></div></div>" :=
  rfl

/-- C11. A record without a score gets the badge text `N/A`, as claimed, but the badge
also carries the severity class `score-low`: the class is computed from `undefined`
without any test, and `undefined >= 0.8` and `undefined >= 0.6` are both false. -/
theorem scoreBadge_of_missing_score_is_low (H : RenderHost) :
    noScoreResults = [("model-a", [("subtask-1", [("accuracy", .str "high")])])] ∧
    ([("accuracy", .str "high")] : JSObject).lookup "score" = none ∧
    scoreBadge "en" H none = .ok "<span class=\"score-badge score-low\">N/A</span>" ∧
    scoreBadge "zh" H none = .ok "<span class=\"score-badge score-low\">N/A</span>" :=
  ⟨rfl, rfl, rfl, rfl⟩

/-- C19. Rendering is not total on the documented data model: a record whose `score` is
the string `"0.9"` makes `renderResultsContent` raise a `TypeError`, because the badge
calls `toFixed` on the score without the `typeof` test that `renderGroup` makes. -/
theorem renderResultsContent_raises_on_string_score (H : RenderHost) :
    renderResultsContent "en" H (some stringScoreResults) =
      .error "TypeError: primaryScore.toFixed is not a function" :=
  rfl

/-! ## Task detail: when the results are requested and what is shown -/

theorem showTaskDetail_requested (task : TaskDetail) (fetchResults : ResultsFetch) :
    (showTaskDetail task fetchResults).requested =
      (resultsEmpty task.results && task.status == "completed") := by
  unfold showTaskDetail
  dsimp only
  cases hc : (resultsEmpty task.results && task.status == "completed")
  · rfl
  · cases fetchResults <;> rfl

theorem showTaskDetail_not_requested (task : TaskDetail) (fetchResults : ResultsFetch)
    (h : (resultsEmpty task.results && task.status == "completed") = false) :
    showTaskDetail task fetchResults =
      { requested := false, results := task.results, resultsError := none } := by
  unfold showTaskDetail
  dsimp only
  rw [h]
  rfl

/-- A failed request for the results of a completed task whose inline results are empty
shows the state "results unavailable: reason" whenever the reason is not the empty
string: the message of the transport error, or the `error` field of the payload when it
is present and non-empty, or else the status text. -/
theorem failed_fetch_shows_reason (lang : String) (H : RenderHost) (task : TaskDetail)
    (hs : task.status = "completed") (he : resultsEmpty task.results = true) :
    (∀ message, message ≠ "" →
      detailResultsSection lang H task (.transportError message) =
        .ok (resultsUnavailable lang message)) ∧
    (∀ statusText error, error ≠ "" →
      detailResultsSection lang H task (.failed statusText (some error)) =
        .ok (resultsUnavailable lang error)) ∧
    (∀ statusText error, (error = none ∨ error = some "") → statusText ≠ "" →
      detailResultsSection lang H task (.failed statusText error) =
        .ok (resultsUnavailable lang statusText)) := by
  have hreq : (resultsEmpty task.results && task.status == "completed") = true := by
    rw [he, hs]
    rfl
  refine ⟨?_, ?_, ?_⟩
  · intro message hm
    unfold detailResultsSection showTaskDetail resultsSection
    dsimp only
    rw [hreq, if_pos rfl, if_pos hs]
    dsimp only
    rw [if_pos (by simp [strTruthy, hm])]
    rfl
  · intro statusText error hm
    unfold detailResultsSection showTaskDetail resultsSection
    dsimp only
    rw [hreq, if_pos rfl, if_pos hs]
    dsimp only
    have ht : strTruthy (some error) = true := by simp [strTruthy, hm]
    rw [if_pos ht, if_pos (by simp [strTruthy, hm])]
    rfl
  · intro statusText error herr hm
    unfold detailResultsSection showTaskDetail resultsSection
    dsimp only
    rw [hreq, if_pos rfl, if_pos hs]
    dsimp only
    have ht : ¬strTruthy error = true := by
      rcases herr with h | h <;> simp [strTruthy, h]
    rw [if_neg ht, if_pos (by simp [strTruthy, hm])]
    rfl

/-- C12. A failed results request does not always show the state "results unavailable":
for a completed task with inline results `{}`, a response that is not `ok`, has no
`error` field and an empty status text (as every HTTP/2 response has) leaves the empty
string in `resultsError`, which `displayTaskDetail` tests by truthiness, and the detail
view shows the state "no results". With the payload `{error: "not ready"}` the state
"results unavailable: not ready" is shown. -/
theorem empty_reason_shows_no_results (H : RenderHost) :
    detailResultsSection "en" H completedEmptyTask (.failed "" none) =
      .ok (noResults "en") ∧
    detailResultsSection "en" H completedEmptyTask (.failed "" (some "")) =
      .ok (noResults "en") ∧
    detailResultsSection "en" H completedEmptyTask (.transportError "") =
      .ok (noResults "en") ∧
    detailResultsSection "en" H completedEmptyTask
        (.failed "Service Unavailable" (some "not ready")) =
      .ok (resultsUnavailable "en" "not ready") :=
  ⟨rfl, rfl, rfl, rfl⟩

/-- C13, as stated, fails for a task that is not completed: a running task with
non-empty inline results issues no results request, and its inline results are not
rendered, the results section being empty. -/
theorem running_task_inline_results_not_rendered :
    runningTask.status = "running" ∧ resultsEmpty runningTask.results = false ∧
    (showTaskDetail runningTask (.ok [])).requested = false ∧
    detailResultsSection "en" sampleHost runningTask (.ok []) = .ok "" ∧
    (∃ m, renderResultsContent "en" sampleHost runningTask.results = .ok m ∧ m ≠ "") :=
  ⟨rfl, rfl, rfl, rfl, _, rfl, by decide⟩

/-- C13, amended. Once the task is fetched, `showTaskDetail` requests
`/tasks/{id}/results` if and only if the status is `completed` and the inline results
are absent or have no keys. When no request is issued, `displayTaskDetail` receives the
inline results and no results error; it renders them when the status is `completed`,
and renders an empty results section for any other status, whatever the inline results
hold. -/
theorem showTaskDetail_requests_results_iff (lang : String) (H : RenderHost)
    (task : TaskDetail) (fetchResults : ResultsFetch) :
    ((showTaskDetail task fetchResults).requested = true ↔
      (task.status = "completed" ∧ resultsEmpty task.results = true)) ∧
    ((showTaskDetail task fetchResults).requested = false →
      (showTaskDetail task fetchResults).results = task.results ∧
      (showTaskDetail task fetchResults).resultsError = none) ∧
    (task.status = "completed" → resultsEmpty task.results = false →
      detailResultsSection lang H task fetchResults =
        (renderResultsContent lang H task.results).map (resultsShown lang)) ∧
    (task.status ≠ "completed" → detailResultsSection lang H task fetchResults = .ok "") := by
  refine ⟨?_, ?_, ?_, ?_⟩
  · rw [showTaskDetail_requested]
    simp only [Bool.and_eq_true, beq_iff_eq]
    exact And.comm
  · intro h
    rw [showTaskDetail_requested] at h
    rw [showTaskDetail_not_requested task fetchResults h]
    exact ⟨rfl, rfl⟩
  · intro hs he
    have h : (resultsEmpty task.results && task.status == "completed") = false := by
      rw [he]
      rfl
    unfold detailResultsSection
    dsimp only
    rw [showTaskDetail_not_requested task fetchResults h]
    unfold resultsSection
    dsimp only
    rw [if_pos hs, if_neg (by simp [strTruthy]), he]
    have ht : (!false) = true := rfl
    rw [if_pos ht]
    cases renderResultsContent lang H task.results <;> rfl
  · intro hs
    have h : (resultsEmpty task.results && task.status == "completed") = false := by
      have : (task.status == "completed") = false := by simpa using hs
      rw [this]
      exact Bool.and_false _
    unfold detailResultsSection
    dsimp only
    rw [showTaskDetail_not_requested task fetchResults h]
    unfold resultsSection
    rw [if_neg hs]

/-- C13, amended, on a completed task with inline results: no request is issued and the
results section is the rendering of the inline results. -/
theorem showTaskDetail_requests_results_iff_witness :
    (showTaskDetail completedTask (.transportError "offline")).requested = false ∧
    detailResultsSection "en" sampleHost completedTask (.transportError "offline") =
      (renderResultsContent "en" sampleHost completedTask.results).map (resultsShown "en") :=
  ⟨rfl,
   (showTaskDetail_requests_results_iff "en" sampleHost completedTask
      (.transportError "offline")).2.2.1 rfl rfl⟩

/-! ## Validation and the request object -/

theorem withJudgeDefault_retrieval_method (c : Config) :
    (withJudgeDefault c).retrieval_method = c.retrieval_method := by
  unfold withJudgeDefault; split <;> rfl

theorem withJudgeDefault_embed_api_url (c : Config) :
    (withJudgeDefault c).embed_api_url = c.embed_api_url := by
  unfold withJudgeDefault; split <;> rfl

theorem withJudgeDefault_embed_api_key (c : Config) :
    (withJudgeDefault c).embed_api_key = c.embed_api_key := by
  unfold withJudgeDefault; split <;> rfl

theorem withJudgeDefault_embed_model_name (c : Config) :
    (withJudgeDefault c).embed_model_name = c.embed_model_name := by
  unfold withJudgeDefault; split <;> rfl

theorem validateConfigRun_eq_check (lang : String) (c : Config) :
    validateConfigRun lang c =
      if Rule.needModel.check c then (.error (t lang Rule.needModel.key), c)
      else if Rule.needDataset.check c then (.error (t lang Rule.needDataset.key), c)
      else if Rule.needApi.check c then (.error (t lang Rule.needApi.key), c)
      else if Rule.needJsonPaths.check c then (.error (t lang Rule.needJsonPaths.key), c)
      else if Rule.jsonTaskEval.check c then (.error (t lang Rule.jsonTaskEval.key), c)
      else if Rule.needEmbedApi.check c then
        (.error (t lang Rule.needEmbedApi.key), withJudgeDefault c)
      else (.ok (), withJudgeDefault c) := by
  have hcond : (strTruthy c.retrieval_method = true ∧ c.retrieval_method ≠ some "none" ∧
      c.retrieval_method = some "dense-api" ∧
      (!strTruthy c.embed_api_url || !strTruthy c.embed_api_key ||
        !strTruthy c.embed_model_name) = true) ↔
      (c.retrieval_method = some "dense-api" ∧
      (!strTruthy c.embed_api_url || !strTruthy c.embed_api_key ||
        !strTruthy c.embed_model_name) = true) := by
    constructor
    · intro h
      exact ⟨h.2.2.1, h.2.2.2⟩
    · intro h
      refine ⟨?_, ?_, h.1, h.2⟩
      · rw [h.1]
        decide
      · rw [h.1]
        decide
  unfold validateConfigRun
  simp only [withJudgeDefault_retrieval_method, withJudgeDefault_embed_api_url,
    withJudgeDefault_embed_api_key, withJudgeDefault_embed_model_name, hcond,
    Rule.check, Rule.key, Bool.and_eq_true, decide_eq_true_eq]

/-- The two forms of `validateConfig` agree: it throws the same error, and the request
it returns when it accepts is the request as the call leaves it. -/
theorem validateConfig_eq_run (lang : String) (c : Config) :
    validateConfig lang c =
      match validateConfigRun lang c with
      | (.ok _, after) => .ok after
      | (.error message, _) => .error message := by
  rw [validateConfig_eq_check, validateConfigRun_eq_check]
  generalize t lang Rule.needModel.key = m1
  generalize t lang Rule.needDataset.key = m2
  generalize t lang Rule.needApi.key = m3
  generalize t lang Rule.needJsonPaths.key = m4
  generalize t lang Rule.jsonTaskEval.key = m5
  generalize t lang Rule.needEmbedApi.key = m6
  split_ifs <;> rfl

theorem validateConfigRun_of_early (lang : String) (c : Config) (r : Rule)
    (hr : r ≠ .needEmbedApi) (hc : r.check c = true) :
    ∃ msg, validateConfigRun lang c = (.error msg, c) := by
  rw [validateConfigRun_eq_check]
  by_cases h0 : Rule.needModel.check c = true
  · exact ⟨_, if_pos h0⟩
  rw [if_neg h0]
  by_cases h1 : Rule.needDataset.check c = true
  · exact ⟨_, if_pos h1⟩
  rw [if_neg h1]
  by_cases h2 : Rule.needApi.check c = true
  · exact ⟨_, if_pos h2⟩
  rw [if_neg h2]
  by_cases h3 : Rule.needJsonPaths.check c = true
  · exact ⟨_, if_pos h3⟩
  rw [if_neg h3]
  by_cases h4 : Rule.jsonTaskEval.check c = true
  · exact ⟨_, if_pos h4⟩
  cases r <;> contradiction

theorem validateConfigRun_of_late (lang : String) (c : Config)
    (h : ∀ r : Rule, r ≠ .needEmbedApi → r.check c = false) :
    validateConfigRun lang c =
      (if Rule.needEmbedApi.check c then .error (t lang Rule.needEmbedApi.key) else .ok (),
        withJudgeDefault c) := by
  rw [validateConfigRun_eq_check]
  have h0 := h .needModel (by decide)
  have h1 := h .needDataset (by decide)
  have h2 := h .needApi (by decide)
  have h3 := h .needJsonPaths (by decide)
  have h4 := h .jsonTaskEval (by decide)
  simp only [h0, h1, h2, h3, h4, Bool.false_eq_true, ↓reduceIte]
  split <;> rfl

theorem validateConfigRun_ok_state (lang : String) (c : Config)
    (h : (validateConfigRun lang c).1 = .ok ()) :
    (validateConfigRun lang c).2 = withJudgeDefault c := by
  by_cases he : ∃ r : Rule, r ≠ .needEmbedApi ∧ r.check c = true
  · obtain ⟨r, hr, hc⟩ := he
    obtain ⟨msg, hmsg⟩ := validateConfigRun_of_early lang c r hr hc
    rw [hmsg] at h
    cases h
  · have hall : ∀ r : Rule, r ≠ .needEmbedApi → r.check c = false := by
      intro r hr
      cases hc : r.check c
      · rfl
      · exact absurd ⟨r, hr, hc⟩ he
    rw [validateConfigRun_of_late lang c hall]

theorem numTruthy_eq_false_iff (o : Option JSNum) :
    numTruthy o = false ↔ o = none ∨ o = some (.fin 0) ∨ o = some .nan := by
  cases o with
  | none => simp [numTruthy]
  | some n => cases n <;> simp [numTruthy, JSNum.truthy]

theorem withJudgeDefault_of_no_judge (c : Config) (h : strTruthy c.judge = false) :
    withJudgeDefault c = c := by
  unfold withJudgeDefault
  rw [h]
  rfl

theorem withJudgeDefault_of_batch (c : Config) (h : numTruthy c.judge_batch_size = true) :
    withJudgeDefault c = c := by
  unfold withJudgeDefault
  rw [h, Bool.not_true, Bool.and_false]
  rfl

theorem withJudgeDefault_of_default (c : Config) (hj : strTruthy c.judge = true)
    (h : numTruthy c.judge_batch_size = false) :
    withJudgeDefault c = { c with judge_batch_size := some (.fin 4) } := by
  unfold withJudgeDefault
  rw [hj, h]
  rfl

theorem withJudgeDefault_frame (c : Config) :
    withJudgeDefault c =
      { c with judge_batch_size := (withJudgeDefault c).judge_batch_size } := by
  unfold withJudgeDefault
  split <;> rfl

/-- C20. For a request whose `judge_batch_size`, when present, is a number proper (not
`NaN`; the form never writes `NaN` there): if `validateConfig` accepts it and `judge` is
set, `judge_batch_size` is afterwards present and non-zero, namely `4` when it was
absent or `0` and its former value otherwise; no other field changes, and nothing
changes when `judge` is not set. A request that violates one of the model, dataset,
API-credentials or JSON rules is rejected and left unchanged; a request that violates
only the embedding-API rule is rejected after the default has been written. -/
theorem validateConfig_judge_batch_default (lang : String) (c : Config)
    (hnum : c.judge_batch_size ≠ some .nan) :
    ((validateConfigRun lang c).1 = .ok () →
      (strTruthy c.judge = true →
        (∃ n, (validateConfigRun lang c).2.judge_batch_size = some n ∧ n ≠ .fin 0) ∧
        ((c.judge_batch_size = none ∨ c.judge_batch_size = some (.fin 0)) →
          (validateConfigRun lang c).2.judge_batch_size = some (.fin 4)) ∧
        (c.judge_batch_size ≠ none → c.judge_batch_size ≠ some (.fin 0) →
          (validateConfigRun lang c).2.judge_batch_size = c.judge_batch_size)) ∧
      (validateConfigRun lang c).2 =
        { c with judge_batch_size := (validateConfigRun lang c).2.judge_batch_size } ∧
      (strTruthy c.judge = false → (validateConfigRun lang c).2 = c)) ∧
    ((∃ r : Rule, r ≠ .needEmbedApi ∧ r.violated c) →
      (∃ msg, (validateConfigRun lang c).1 = .error msg) ∧ (validateConfigRun lang c).2 = c) ∧
    ((Rule.needEmbedApi.violated c ∧ ∀ r : Rule, r ≠ .needEmbedApi → ¬r.violated c) →
      (validateConfigRun lang c).1 = .error (t lang "validate_need_embed_api") ∧
      (validateConfigRun lang c).2 = withJudgeDefault c ∧
      (strTruthy c.judge = true →
        (c.judge_batch_size = none ∨ c.judge_batch_size = some (.fin 0)) →
        (validateConfigRun lang c).2.judge_batch_size = some (.fin 4))) := by
  have hfalsy : (c.judge_batch_size = none ∨ c.judge_batch_size = some (.fin 0)) →
      numTruthy c.judge_batch_size = false := fun h =>
    (numTruthy_eq_false_iff _).mpr (h.elim Or.inl (fun h0 => Or.inr (Or.inl h0)))
  have htruthy : c.judge_batch_size ≠ none → c.judge_batch_size ≠ some (.fin 0) →
      numTruthy c.judge_batch_size = true := by
    intro h1 h2
    cases hn : numTruthy c.judge_batch_size
    · rcases (numTruthy_eq_false_iff _).mp hn with h | h | h
      · exact absurd h h1
      · exact absurd h h2
      · exact absurd h hnum
    · rfl
  refine ⟨?_, ?_, ?_⟩
  · intro hok
    rw [validateConfigRun_ok_state lang c hok]
    refine ⟨?_, withJudgeDefault_frame c, withJudgeDefault_of_no_judge c⟩
    intro hj
    refine ⟨?_, ?_, ?_⟩
    · cases hn : numTruthy c.judge_batch_size
      · rw [withJudgeDefault_of_default c hj hn]
        exact ⟨.fin 4, rfl, by decide⟩
      · rw [withJudgeDefault_of_batch c hn]
        cases hb : c.judge_batch_size with
        | none => rw [hb] at hn; cases hn
        | some n =>
          refine ⟨n, rfl, ?_⟩
          intro h0
          rw [hb, h0] at hn
          exact absurd hn (by decide)
    · intro h
      rw [withJudgeDefault_of_default c hj (hfalsy h)]
    · intro h1 h2
      rw [withJudgeDefault_of_batch c (htruthy h1 h2)]
  · intro ⟨r, hr, hv⟩
    obtain ⟨msg, hmsg⟩ :=
      validateConfigRun_of_early lang c r hr ((Rule.violated_iff_check c r).mp hv)
    rw [hmsg]
    exact ⟨⟨msg, rfl⟩, rfl⟩
  · intro ⟨hv, hnone⟩
    have hall : ∀ r : Rule, r ≠ .needEmbedApi → r.check c = false := by
      intro r hr
      cases hc : r.check c
      · rfl
      · exact absurd ((Rule.violated_iff_check c r).mpr hc) (hnone r hr)
    rw [validateConfigRun_of_late lang c hall, if_pos ((Rule.violated_iff_check c _).mp hv)]
    refine ⟨rfl, rfl, ?_⟩
    intro hj h
    show (withJudgeDefault c).judge_batch_size = some (.fin 4)
    rw [withJudgeDefault_of_default c hj (hfalsy h)]

/-- C20, on concrete requests: the request built from a form with a judge and an empty
judge batch size is accepted and leaves with `judge_batch_size = 4`; a request violating
only the embedding-API rule is rejected and has received the same default. -/
theorem validateConfig_judge_batch_default_witness :
    ((getFormConfig digitsHost judgeForm).judge_batch_size = none ∧
      (validateConfigRun "en" (getFormConfig digitsHost judgeForm)).2.judge_batch_size =
        some (.fin 4)) ∧
    ((validateConfigRun "en" judgeDenseRequest).1 =
        .error "Embedding API mode requires API URL, API Key and model name" ∧
      (validateConfigRun "en" judgeDenseRequest).2.judge_batch_size = some (.fin 4)) :=
  ⟨⟨rfl,
    (((validateConfig_judge_batch_default "en" (getFormConfig digitsHost judgeForm)
      (by decide)).1 rfl).1 rfl).2.1 (Or.inl rfl)⟩,
   ((validateConfig_judge_batch_default "en" judgeDenseRequest (by decide)).2.2
      ⟨(Rule.violated_iff_check _ _).mpr (by decide),
       fun r hr hv => absurd ((Rule.violated_iff_check _ r).mp hv)
        (by cases r <;> first | decide | exact absurd rfl hr)⟩).1,
   ((validateConfig_judge_batch_default "en" judgeDenseRequest (by decide)).2.2
      ⟨(Rule.violated_iff_check _ _).mpr (by decide),
       fun r hr hv => absurd ((Rule.violated_iff_check _ r).mp hv)
        (by cases r <;> first | decide | exact absurd rfl hr)⟩).2.2 rfl (Or.inl rfl)⟩

/-! ## Submission -/

/-- C14. When `validateConfig` rejects the request built from the form, the only effect
of `submitEvaluationTask` is one error notification, made of the localized
task-submit-failed text, a colon and the message of the rule: there is no POST to
`/submit_task`, no refresh of the recent tasks, no tab switch, and the form state is
what it was. -/
theorem rejected_form_is_not_submitted (B : Builtins) (lang : String) (f : FormState)
    (server : Config → SubmitResponse) (message : String)
    (h : validateConfig lang (getFormConfig B f) = .error message) :
    (submitEvaluationTask B lang f server).effects =
      [.showError (t lang "err_task_submit_failed" ++ ": " ++ message)] ∧
    (∀ body, Effect.postSubmitTask body ∉ (submitEvaluationTask B lang f server).effects) ∧
    Effect.loadRecentTasks ∉ (submitEvaluationTask B lang f server).effects ∧
    Effect.clickResultsTab ∉ (submitEvaluationTask B lang f server).effects ∧
    (submitEvaluationTask B lang f server).form = f := by
  have he : (submitEvaluationTask B lang f server).effects =
      [.showError (t lang "err_task_submit_failed" ++ ": " ++ message)] := by
    unfold submitEvaluationTask
    rw [h]
  have hf : (submitEvaluationTask B lang f server).form = f := by
    unfold submitEvaluationTask
    rw [h]
  refine ⟨he, ?_, ?_, ?_, hf⟩
  · intro body hmem
    rw [he] at hmem
    simp at hmem
  · intro hmem
    rw [he] at hmem
    simp at hmem
  · intro hmem
    rw [he] at hmem
    simp at hmem

/-- C14, on the blank form (no dataset selected), whatever the server would answer. -/
theorem rejected_form_is_not_submitted_witness :
    (submitEvaluationTask digitsHost "en" blankForm acceptingServer).effects =
      [.showError "Task submission failed: Please select at least one dataset"] ∧
    (submitEvaluationTask digitsHost "en" blankForm acceptingServer).form = blankForm :=
  have h := rejected_form_is_not_submitted digitsHost "en" blankForm acceptingServer
    "Please select at least one dataset" rfl
  ⟨h.1, h.2.2.2.2⟩

/-- C15, amended. For a request that passed validation. When the response has a JSON
object as body and is not `ok`, the effects are the POST and one error notification,
whose text is the `error` field when it is present and non-empty and the localized
task-submit-failed text otherwise, with no success notification, no refresh and no tab
switch; when it has a JSON object as body and is `ok`, the effects are the POST, a
success notification made of the localized prefix and the returned `task_id`, the
refresh of the recent tasks and the switch to the results tab. When the body of the
response is not JSON, whatever the status, the effects are the POST and one error
notification, whose text is the localized task-submit-failed text, a colon and the
message of the parse error, with no success notification, no refresh and no tab switch.
The form state is unchanged in all cases. -/
theorem submit_response_handling (B : Builtins) (lang : String) (f : FormState)
    (server : Config → SubmitResponse) (config : Config)
    (hv : validateConfig lang (getFormConfig B f) = .ok config) :
    (∀ task_id error, server config = .json false task_id error →
      (∀ e, error = some e → e ≠ "" →
        (submitEvaluationTask B lang f server).effects =
          [.postSubmitTask config, .showError e]) ∧
      ((error = none ∨ error = some "") →
        (submitEvaluationTask B lang f server).effects =
          [.postSubmitTask config, .showError (t lang "err_task_submit_failed")]) ∧
      (∀ m, Effect.showSuccess m ∉ (submitEvaluationTask B lang f server).effects) ∧
      Effect.loadRecentTasks ∉ (submitEvaluationTask B lang f server).effects ∧
      Effect.clickResultsTab ∉ (submitEvaluationTask B lang f server).effects ∧
      (submitEvaluationTask B lang f server).form = f) ∧
    (∀ task_id error, server config = .json true (some task_id) error →
      (submitEvaluationTask B lang f server).effects =
        [.postSubmitTask config, .showSuccess (t lang "submit_success_prefix" ++ task_id),
          .loadRecentTasks, .clickResultsTab] ∧
      (submitEvaluationTask B lang f server).form = f) ∧
    (∀ ok message, server config = .notJson ok message →
      (submitEvaluationTask B lang f server).effects =
        [.postSubmitTask config,
          .showError (t lang "err_task_submit_failed" ++ ": " ++ message)] ∧
      (∀ m, Effect.showSuccess m ∉ (submitEvaluationTask B lang f server).effects) ∧
      Effect.loadRecentTasks ∉ (submitEvaluationTask B lang f server).effects ∧
      Effect.clickResultsTab ∉ (submitEvaluationTask B lang f server).effects ∧
      (submitEvaluationTask B lang f server).form = f) := by
  refine ⟨?_, ?_, ?_⟩
  · intro task_id error hs
    have he : (submitEvaluationTask B lang f server).effects =
        [.postSubmitTask config,
          .showError (if strTruthy error then error.getD "" else
            t lang "err_task_submit_failed")] := by
      unfold submitEvaluationTask
      rw [hv]
      dsimp only
      rw [hs]
    have hf : (submitEvaluationTask B lang f server).form = f := by
      unfold submitEvaluationTask
      rw [hv]
      dsimp only
      rw [hs]
    refine ⟨?_, ?_, ?_, ?_, ?_, hf⟩
    · intro e h1 h2
      rw [he, h1, if_pos (by simp [strTruthy, h2])]
      rfl
    · intro h
      have hn : ¬strTruthy error = true := by
        rcases h with h | h <;> simp [strTruthy, h]
      rw [he, if_neg hn]
    · intro m hmem
      rw [he] at hmem
      simp at hmem
    · intro hmem
      rw [he] at hmem
      simp at hmem
    · intro hmem
      rw [he] at hmem
      simp at hmem
  · intro task_id error hs
    constructor
    · unfold submitEvaluationTask
      rw [hv]
      dsimp only
      rw [hs]
      rfl
    · unfold submitEvaluationTask
      rw [hv]
      dsimp only
      rw [hs]
  · intro ok message hs
    generalize hm : t lang "err_task_submit_failed" = generic
    have he : (submitEvaluationTask B lang f server).effects =
        [.postSubmitTask config, .showError (generic ++ ": " ++ message)] := by
      unfold submitEvaluationTask
      rw [hv]
      dsimp only
      rw [hs, hm]
    have hf : (submitEvaluationTask B lang f server).form = f := by
      unfold submitEvaluationTask
      rw [hv]
      dsimp only
      rw [hs]
    refine ⟨he, ?_, ?_, ?_, hf⟩
    · intro m hmem
      rw [he] at hmem
      simp at hmem
    · intro hmem
      rw [he] at hmem
      simp at hmem
    · intro hmem
      rw [he] at hmem
      simp at hmem

/-- C15, amended, on the local-model form: a refusal with `error: "queue full"` shows
that text, a refusal without an `error` field shows the English task-submit-failed text,
an acceptance shows the task id, refreshes and switches the tab, and a 502 answer whose
body is an HTML page shows the task-submit-failed text followed by the message of the
parse error. -/
theorem submit_response_handling_witness :
    (submitEvaluationTask digitsHost "en" localForm (refusingServer (some "queue full"))).effects =
      [.postSubmitTask (withJudgeDefault (getFormConfig digitsHost localForm)),
        .showError "queue full"] ∧
    (submitEvaluationTask digitsHost "en" localForm (refusingServer none)).effects =
      [.postSubmitTask (withJudgeDefault (getFormConfig digitsHost localForm)),
        .showError "Task submission failed"] ∧
    (submitEvaluationTask digitsHost "en" localForm acceptingServer).effects =
      [.postSubmitTask (withJudgeDefault (getFormConfig digitsHost localForm)),
        .showSuccess "Task submitted! ID: t-42", .loadRecentTasks, .clickResultsTab] ∧
    (submitEvaluationTask digitsHost "en" localForm (htmlPageServer false)).effects =
      [.postSubmitTask (withJudgeDefault (getFormConfig digitsHost localForm)),
        .showError "Task submission failed: Unexpected token < in JSON at position 0"] :=
  ⟨((submit_response_handling digitsHost "en" localForm (refusingServer (some "queue full"))
      (withJudgeDefault (getFormConfig digitsHost localForm)) rfl).1 none (some "queue full")
      rfl).1 "queue full" rfl (by decide),
   ((submit_response_handling digitsHost "en" localForm (refusingServer none)
      (withJudgeDefault (getFormConfig digitsHost localForm)) rfl).1 none none rfl).2.1
      (Or.inl rfl),
   ((submit_response_handling digitsHost "en" localForm acceptingServer
      (withJudgeDefault (getFormConfig digitsHost localForm)) rfl).2.1 "t-42" none rfl).1,
   ((submit_response_handling digitsHost "en" localForm (htmlPageServer false)
      (withJudgeDefault (getFormConfig digitsHost localForm)) rfl).2.2 false
      "Unexpected token < in JSON at position 0" rfl).1⟩

/-- C15, as stated, fails when the body of the response is not JSON. The local-model
form passes validation and is posted. To the 502 answer with an HTML page as body
(non-2xx, no `error` field) the error shown is not the English task-submit-failed text
but that text followed by a colon and the message of the parse error. To the 200 answer
with an HTML page as body (2xx) the same error is shown: there is no success
notification, no refresh of the recent tasks and no switch of the tab. -/
theorem non_json_body_is_reported_as_parse_failure :
    (submitEvaluationTask digitsHost "en" localForm (htmlPageServer false)).effects =
      [.postSubmitTask (withJudgeDefault (getFormConfig digitsHost localForm)),
        .showError "Task submission failed: Unexpected token < in JSON at position 0"] ∧
    (submitEvaluationTask digitsHost "en" localForm (htmlPageServer false)).effects ≠
      [.postSubmitTask (withJudgeDefault (getFormConfig digitsHost localForm)),
        .showError (t "en" "err_task_submit_failed")] ∧
    (submitEvaluationTask digitsHost "en" localForm (htmlPageServer true)).effects =
      [.postSubmitTask (withJudgeDefault (getFormConfig digitsHost localForm)),
        .showError "Task submission failed: Unexpected token < in JSON at position 0"] ∧
    Effect.loadRecentTasks ∉
      (submitEvaluationTask digitsHost "en" localForm (htmlPageServer true)).effects ∧
    Effect.clickResultsTab ∉
      (submitEvaluationTask digitsHost "en" localForm (htmlPageServer true)).effects := by
  have h1 : (submitEvaluationTask digitsHost "en" localForm (htmlPageServer false)).effects =
      [.postSubmitTask (withJudgeDefault (getFormConfig digitsHost localForm)),
        .showError "Task submission failed: Unexpected token < in JSON at position 0"] := rfl
  have h2 : (submitEvaluationTask digitsHost "en" localForm (htmlPageServer true)).effects =
      [.postSubmitTask (withJudgeDefault (getFormConfig digitsHost localForm)),
        .showError "Task submission failed: Unexpected token < in JSON at position 0"] := rfl
  have ht : t "en" "err_task_submit_failed" = "Task submission failed" := by decide
  refine ⟨h1, ?_, h2, ?_, ?_⟩
  · rw [h1, ht]
    intro h
    have h3 := (List.cons.inj h).2
    have h4 := (List.cons.inj h3).1
    have h5 := Effect.showError.inj h4
    exact absurd h5 (by decide)
  · intro hmem
    rw [h2] at hmem
    simp at hmem
  · intro hmem
    rw [h2] at hmem
    simp at hmem

/-! ## The model path and the model type -/

theorem startsWith_hf_not_api (p : String) : startsWith ("hf:" ++ p) "api:" = false := by
  unfold startsWith
  simp only [String.toList, String.data_append]
  rfl

/-- C22. The `models` of the request built from any form state has exactly one element,
also when the model path is empty, so the need-model rule is never violated by a
form-built request; and a form with an empty model path, a model type other than `api`,
a dataset selected and the JSON-eval, retrieval and judge toggles off is accepted by
`validateConfig`, the request being left as built. -/
theorem form_models_is_singleton (B : Builtins) (lang : String) (f : FormState) :
    (∃ m, (getFormConfig B f).models = some [m]) ∧
    (f.modelPath = "" → ∃ m, (getFormConfig B f).models = some [m]) ∧
    ¬Rule.violated (getFormConfig B f) .needModel ∧
    (f.modelPath = "" → f.modelType ≠ "api" → f.datasetSelect ≠ [] →
      f.jsonEvalSwitch = false → f.retrievalSwitch = false → f.judgeSwitch = false →
      validateConfig lang (getFormConfig B f) = .ok (getFormConfig B f)) := by
  have hm : ∃ m, (getFormConfig B f).models = some [m] := by
    rw [getFormConfig_models]
    by_cases h1 : f.modelType = "api"
    · rw [if_pos h1]
      exact ⟨_, rfl⟩
    · rw [if_neg h1]
      by_cases h2 : f.modelType = "hf"
      · rw [if_pos h2]
        exact ⟨_, rfl⟩
      · rw [if_neg h2]
        exact ⟨_, rfl⟩
  refine ⟨hm, fun _ => hm, ?_, ?_⟩
  · intro hv
    obtain ⟨m, hm⟩ := hm
    rcases hv with h | h
    · rw [hm] at h
      cases h
    · rw [hm] at h
      cases h
  · intro hp h1 h3 h4 h5 h6
    have hj : (getFormConfig B f).judge = none := by
      rw [getFormConfig_judge, h6]
      rfl
    have hok : validateConfig lang (getFormConfig B f) =
        .ok (withJudgeDefault (getFormConfig B f)) := by
      apply validateConfig_ok_of_none
      intro r
      cases r
      · obtain ⟨m, hm⟩ := hm
        simp [Rule.check, hm, absentOrEmpty]
      · simp [Rule.check, getFormConfig_datasets, absentOrEmpty, h3]
      · have hmod : (getFormConfig B f).models =
            some [if f.modelType = "hf" then "hf:" ++ f.modelPath else f.modelPath] := by
          rw [getFormConfig_models, if_neg h1]
          by_cases h2 : f.modelType = "hf"
          · rw [if_pos h2, if_pos h2]
          · rw [if_neg h2, if_neg h2]
        have hs : startsWith (if f.modelType = "hf" then "hf:" ++ f.modelPath else f.modelPath)
            "api:" = false := by
          by_cases h2 : f.modelType = "hf"
          · rw [if_pos h2]
            exact startsWith_hf_not_api _
          · rw [if_neg h2, hp]
            rfl
        simp only [Rule.check, hmod, Option.getD_some, List.any_cons, List.any_nil, hs,
          Bool.or_false, Bool.false_and]
      · simp [Rule.check, getFormConfig_json_eval, h4]
      · simp [Rule.check, getFormConfig_json_eval, h4]
      · have hr : (getFormConfig B f).retrieval_method = some "none" := by
          rw [getFormConfig_retrieval_method, h5]
          rfl
        simp only [Rule.check, hr, Bool.and_eq_false_imp, decide_eq_true_eq]
        intro h
        exact absurd h (by decide)
    rw [hok, withJudgeDefault_of_no_judge]
    rw [hj]
    rfl

/-- C22, on a concrete form with an empty model path: the request has the one model
`""` and is accepted. -/
theorem form_models_is_singleton_witness :
    (getFormConfig digitsHost emptyPathForm).models = some [""] ∧
    validateConfig "en" (getFormConfig digitsHost emptyPathForm) =
      .ok (getFormConfig digitsHost emptyPathForm) :=
  ⟨rfl,
   (form_models_is_singleton digitsHost "en" emptyPathForm).2.2.2 rfl (by decide) (by decide)
      rfl rfl rfl⟩

/-- C23, as stated, fails for the model type `hf`: the model path `api:gpt-x` becomes
the model `hf:api:gpt-x`, which does not begin with `api:`, and the request is
accepted although the API fields are empty. -/
theorem hf_model_with_api_path_is_accepted :
    hfApiPathForm.modelType ≠ "api" ∧ startsWith hfApiPathForm.modelPath "api:" = true ∧
    (getFormConfig digitsHost hfApiPathForm).models = some ["hf:api:gpt-x"] ∧
    validateConfig "en" (getFormConfig digitsHost hfApiPathForm) =
      .ok (getFormConfig digitsHost hfApiPathForm) :=
  ⟨by decide, by decide, rfl, rfl⟩

/-- C23, amended. For every form state whose model type is neither `api` nor `hf` and
whose model path begins with `api:`, the request built from the form has no `api_url`
and no `api_key`, violates the API-credentials rule and is rejected by `validateConfig`,
whatever the API URL and API key fields contain. -/
theorem raw_api_path_without_api_type_is_rejected (B : Builtins) (lang : String)
    (f : FormState) (h1 : f.modelType ≠ "api") (h2 : f.modelType ≠ "hf")
    (hp : startsWith f.modelPath "api:" = true) (url key : String) :
    (getFormConfig B { f with apiUrl := url, apiKey := key }).api_url = none ∧
    (getFormConfig B { f with apiUrl := url, apiKey := key }).api_key = none ∧
    Rule.violated (getFormConfig B { f with apiUrl := url, apiKey := key }) .needApi ∧
    ∃ msg, validateConfig lang (getFormConfig B { f with apiUrl := url, apiKey := key }) =
      .error msg := by
  have hu : (getFormConfig B { f with apiUrl := url, apiKey := key }).api_url = none := by
    rw [getFormConfig_api_url]
    exact if_neg h1
  have hk : (getFormConfig B { f with apiUrl := url, apiKey := key }).api_key = none := by
    rw [getFormConfig_api_key]
    exact if_neg h1
  have hm : (getFormConfig B { f with apiUrl := url, apiKey := key }).models =
      some [f.modelPath] := by
    rw [getFormConfig_models]
    dsimp only
    rw [if_neg h1, if_neg h2]
  have hc : Rule.needApi.check (getFormConfig B { f with apiUrl := url, apiKey := key }) =
      true := by
    simp only [Rule.check, hm, hu, hk, Option.getD_some, List.any_cons, List.any_nil, hp,
      Bool.or_false, strTruthy, Bool.not_false, Bool.or_self, Bool.and_self]
  exact ⟨hu, hk, (Rule.violated_iff_check _ _).mpr hc,
    validateConfig_fails_of_check lang _ .needApi hc⟩

/-- C23, amended, on a concrete form: a local model with path `api:gpt-x` is rejected
with the English need-API message although both API fields are filled in. -/
theorem raw_api_path_without_api_type_is_rejected_witness :
    rawApiPathForm.apiUrl = "https://api.example/v1" ∧ rawApiPathForm.apiKey = "sk-1" ∧
    validateConfig "en" (getFormConfig digitsHost rawApiPathForm) =
      .error "API model requires API URL and API Key" ∧
    ∃ msg, validateConfig "en" (getFormConfig digitsHost
      { rawApiPathForm with apiUrl := "https://api.example/v1", apiKey := "sk-1" }) =
      .error msg :=
  ⟨rfl, rfl, rfl,
   (raw_api_path_without_api_type_is_rejected digitsHost "en" rawApiPathForm (by decide)
      (by decide) (by decide) "https://api.example/v1" "sk-1").2.2.2⟩

/-! ## Trimming and splitting, on characters -/

theorem trimChars_cons_ws (c : Char) (p : List Char) (h : isJSWhiteSpace c = true) :
    trimChars (c :: p) = trimChars p := by
  unfold trimChars
  rw [List.dropWhile_cons, if_pos h]

theorem trimChars_eq_nil_iff (l : List Char) :
    trimChars l = [] ↔ l.all isJSWhiteSpace = true := by
  constructor
  · intro h
    unfold trimChars at h
    rw [List.reverse_eq_nil_iff, List.dropWhile_eq_nil_iff] at h
    have hd : l.dropWhile isJSWhiteSpace = [] := by
      by_contra hne
      have hhead := List.head_dropWhile_not isJSWhiteSpace l hne
      have hmem : (l.dropWhile isJSWhiteSpace).head hne ∈
          (l.dropWhile isJSWhiteSpace).reverse :=
        List.mem_reverse.mpr (List.head_mem hne)
      rw [h _ hmem] at hhead
      cases hhead
    rw [List.dropWhile_eq_nil_iff] at hd
    exact List.all_eq_true.mpr hd
  · exact trimChars_blank l

theorem trimChars_snoc_ws (c : Char) (p : List Char) (h : isJSWhiteSpace c = true) :
    trimChars (p ++ [c]) = trimChars p := by
  unfold trimChars
  rw [List.dropWhile_append]
  by_cases he : (p.dropWhile isJSWhiteSpace).isEmpty = true
  · rw [if_pos he]
    have hnil : p.dropWhile isJSWhiteSpace = [] := List.isEmpty_iff.mp he
    rw [hnil, List.dropWhile_cons, if_pos h]
    rfl
  · rw [if_neg he, List.reverse_append, List.reverse_singleton, List.singleton_append,
      List.dropWhile_cons, if_pos h]

theorem splitCharAux_cur (sep : Char) (l : List Char) :
    ∃ h t, splitCharAux sep [] l = h :: t ∧
      ∀ cur, splitCharAux sep cur l = (cur.reverse ++ h) :: t := by
  induction l with
  | nil =>
    refine ⟨[], [], rfl, ?_⟩
    intro cur
    simp [splitCharAux]
  | cons c cs ih =>
    obtain ⟨h, t, h0, hcur⟩ := ih
    by_cases hc : c = sep
    · refine ⟨[], splitCharAux sep [] cs, ?_, ?_⟩
      · simp [splitCharAux, hc]
      · intro cur
        simp [splitCharAux, hc]
    · refine ⟨c :: h, t, ?_, ?_⟩
      · rw [splitCharAux, if_neg hc, hcur]
        rfl
      · intro cur
        rw [splitCharAux, if_neg hc, hcur]
        simp

theorem splitCharAux_snoc (sep c : Char) (l cur : List Char) :
    splitCharAux sep cur (l ++ [c]) =
      if c = sep then splitCharAux sep cur l ++ [[]]
      else appendToLast c (splitCharAux sep cur l) := by
  induction l generalizing cur with
  | nil =>
    by_cases hc : c = sep
    · simp [splitCharAux, hc]
    · simp [splitCharAux, hc, appendToLast]
  | cons d ds ih =>
    by_cases hd : d = sep
    · rw [List.cons_append, splitCharAux, if_pos hd, ih, splitCharAux, if_pos hd]
      by_cases hc : c = sep
      · rw [if_pos hc, if_pos hc]
        rfl
      · rw [if_neg hc, if_neg hc]
        obtain ⟨h, t, h0, _⟩ := splitCharAux_cur sep ds
        rw [h0]
        rfl
    · rw [List.cons_append, splitCharAux, if_neg hd, ih, splitCharAux, if_neg hd]

theorem trimmedPieces_cons (p : List Char) (ps : List (List Char)) :
    trimmedPieces (p :: ps) =
      (if trimChars p ≠ [] then [trimChars p] else []) ++ trimmedPieces ps := by
  unfold trimmedPieces
  rw [List.map_cons, List.filter_cons]
  by_cases h : trimChars p ≠ []
  · rw [if_pos (by simpa using h), if_pos h]
    rfl
  · rw [if_neg (by simpa using h), if_neg h]
    rfl

theorem trimmedPieces_nil_piece (ps : List (List Char)) :
    trimmedPieces ([] :: ps) = trimmedPieces ps := by
  rw [trimmedPieces_cons]
  rfl

theorem trimmedPieces_append_nil (ps : List (List Char)) :
    trimmedPieces (ps ++ [[]]) = trimmedPieces ps := by
  unfold trimmedPieces
  rw [List.map_append, List.filter_append]
  simp [trimChars]

theorem trimmedPieces_appendToLast (c : Char) (h : isJSWhiteSpace c = true)
    (ps : List (List Char)) :
    trimmedPieces (appendToLast c ps) = trimmedPieces ps := by
  induction ps with
  | nil =>
    have : trimChars [c] = [] := (trimChars_eq_nil_iff [c]).mpr (by simp [h])
    simp [appendToLast, trimmedPieces, this]
  | cons p ps ih =>
    cases ps with
    | nil =>
      rw [appendToLast, trimmedPieces_cons, trimmedPieces_cons, trimChars_snoc_ws c p h]
    | cons q qs =>
      rw [appendToLast, trimmedPieces_cons, trimmedPieces_cons, ih]

theorem splitNewlinesAux_trimmedPieces (l : List Char) :
    ∀ cur : List Char,
      trimmedPieces (splitNewlinesAux cur false l) = trimmedPieces (splitCharAux '\n' cur l) ∧
      trimmedPieces (splitNewlinesAux [] true l) = trimmedPieces (splitCharAux '\n' [] l) := by
  induction l with
  | nil =>
    intro cur
    exact ⟨rfl, rfl⟩
  | cons c cs ih =>
    intro cur
    by_cases hc : c = '\n'
    · have hf : ¬(false = true) := Bool.false_ne_true
      constructor
      · rw [splitNewlinesAux, if_pos hc, if_neg hf, splitCharAux, if_pos hc,
          trimmedPieces_cons, trimmedPieces_cons, (ih []).2]
      · rw [splitNewlinesAux, if_pos hc, if_pos rfl, splitCharAux, if_pos hc, (ih []).2]
        exact (trimmedPieces_nil_piece _).symm
    · constructor
      · rw [splitNewlinesAux, if_neg hc, splitCharAux, if_neg hc]
        exact (ih (c :: cur)).1
      · rw [splitNewlinesAux, if_neg hc, splitCharAux, if_neg hc]
        exact (ih [c]).1

theorem trimmedPieces_split_cons_ws (c : Char) (h : isJSWhiteSpace c = true)
    (cs : List Char) :
    trimmedPieces (splitCharAux '\n' [] (c :: cs)) =
      trimmedPieces (splitCharAux '\n' [] cs) := by
  by_cases hc : c = '\n'
  · rw [splitCharAux, if_pos hc]
    exact trimmedPieces_nil_piece _
  · obtain ⟨hd, tl, h0, hcur⟩ := splitCharAux_cur '\n' cs
    rw [splitCharAux, if_neg hc, hcur, h0, trimmedPieces_cons, trimmedPieces_cons]
    have : trimChars ([c].reverse ++ hd) = trimChars hd := trimChars_cons_ws c hd h
    rw [this]

theorem trimmedPieces_split_dropWhile (l : List Char) :
    trimmedPieces (splitCharAux '\n' [] (l.dropWhile isJSWhiteSpace)) =
      trimmedPieces (splitCharAux '\n' [] l) := by
  induction l with
  | nil => rfl
  | cons c cs ih =>
    by_cases h : isJSWhiteSpace c = true
    · rw [List.dropWhile_cons, if_pos h, ih, trimmedPieces_split_cons_ws c h]
    · rw [List.dropWhile_cons, if_neg h]

theorem trimmedPieces_split_snoc_ws (c : Char) (h : isJSWhiteSpace c = true)
    (l : List Char) :
    trimmedPieces (splitCharAux '\n' [] (l ++ [c])) =
      trimmedPieces (splitCharAux '\n' [] l) := by
  rw [splitCharAux_snoc]
  by_cases hc : c = '\n'
  · rw [if_pos hc]
    exact trimmedPieces_append_nil _
  · rw [if_neg hc]
    exact trimmedPieces_appendToLast c h _

theorem trimmedPieces_split_dropTrailing (r : List Char) :
    trimmedPieces (splitCharAux '\n' [] (r.dropWhile isJSWhiteSpace).reverse) =
      trimmedPieces (splitCharAux '\n' [] r.reverse) := by
  induction r with
  | nil => rfl
  | cons c cs ih =>
    by_cases h : isJSWhiteSpace c = true
    · rw [List.dropWhile_cons, if_pos h, ih, List.reverse_cons,
        trimmedPieces_split_snoc_ws c h]
    · rw [List.dropWhile_cons, if_neg h]

/-- Splitting the trimmed text at runs of newlines and splitting the text itself at
every newline give the same lines, once each line is trimmed and blank lines dropped. -/
theorem trimmedPieces_splitNewlines_trimChars (l : List Char) :
    trimmedPieces (splitNewlinesAux [] false (trimChars l)) =
      trimmedPieces (splitCharAux '\n' [] l) := by
  rw [(splitNewlinesAux_trimmedPieces (trimChars l) []).1]
  unfold trimChars
  rw [trimmedPieces_split_dropTrailing, List.reverse_reverse, trimmedPieces_split_dropWhile]

theorem mem_splitCharAux (sep x : Char) (hx : x ≠ sep) (l : List Char) :
    ∀ cur : List Char, x ∈ cur ∨ x ∈ l → ∃ p ∈ splitCharAux sep cur l, x ∈ p := by
  induction l with
  | nil =>
    intro cur h
    refine ⟨cur.reverse, by simp [splitCharAux], ?_⟩
    rcases h with h | h
    · exact List.mem_reverse.mpr h
    · cases h
  | cons c cs ih =>
    intro cur h
    by_cases hc : c = sep
    · rw [splitCharAux, if_pos hc]
      rcases h with h | h
      · exact ⟨cur.reverse, List.mem_cons_self _ _, List.mem_reverse.mpr h⟩
      · rcases List.mem_cons.mp h with h | h
        · exact absurd (h.trans hc) hx
        · obtain ⟨p, hp, hxp⟩ := ih [] (Or.inr h)
          exact ⟨p, List.mem_cons_of_mem _ hp, hxp⟩
    · rw [splitCharAux, if_neg hc]
      apply ih (c :: cur)
      rcases h with h | h
      · exact Or.inl (List.mem_cons_of_mem _ h)
      · rcases List.mem_cons.mp h with h | h
        · exact Or.inl (h ▸ List.mem_cons_self _ _)
        · exact Or.inr h

theorem trimmedPieces_split_ne_nil (l : List Char) (h : l.all isJSWhiteSpace = false) :
    trimmedPieces (splitCharAux '\n' [] l) ≠ [] := by
  have hex : ∃ x ∈ l, isJSWhiteSpace x = false := by
    by_contra hne
    have hall : l.all isJSWhiteSpace = true := by
      rw [List.all_eq_true]
      intro x hx
      cases hw : isJSWhiteSpace x
      · exact absurd ⟨x, hx, hw⟩ hne
      · rfl
    rw [hall] at h
    cases h
  obtain ⟨x, hx, hw⟩ := hex
  have hsep : x ≠ '\n' := by
    intro he
    rw [he] at hw
    exact absurd hw (by decide)
  obtain ⟨p, hp, hxp⟩ := mem_splitCharAux '\n' x hsep l [] (Or.inr hx)
  have htrim : trimChars p ≠ [] := by
    intro ht
    have hall := (trimChars_eq_nil_iff p).mp ht
    rw [List.all_eq_true.mp hall x hxp] at hw
    cases hw
  have hmem : trimChars p ∈ trimmedPieces (splitCharAux '\n' [] l) := by
    unfold trimmedPieces
    rw [List.mem_filter]
    exact ⟨List.mem_map_of_mem _ hp, by simpa using htrim⟩
  intro hnil
  rw [hnil] at hmem
  cases hmem

/-! ## The lines of the JSON paths field -/

theorem mk_ne_empty_iff (q : List Char) : String.mk q ≠ "" ↔ q ≠ [] := by
  have he : ("" : String) = String.mk [] := rfl
  rw [he]
  constructor
  · intro h hq
    exact h (by rw [hq])
  · intro h hq
    exact h (congrArg String.data hq)

theorem trimmed_lines_of_pieces (ps : List (List Char)) :
    ((ps.map String.mk).map jsTrim).filter (fun l => decide (l ≠ "")) =
      (trimmedPieces ps).map String.mk := by
  induction ps with
  | nil => rfl
  | cons p ps ih =>
    have hj : jsTrim (String.mk p) = String.mk (trimChars p) := rfl
    rw [List.map_cons, List.map_cons, List.filter_cons, ih, trimmedPieces_cons, hj]
    by_cases h : trimChars p ≠ []
    · rw [if_pos (by simpa using (mk_ne_empty_iff _).mpr h), if_pos h]
      rfl
    · rw [if_neg (by simpa using (mk_ne_empty_iff (trimChars p)).not.mpr h), if_neg h]
      rfl

theorem jsTrim_eq_empty_iff (s : String) : jsTrim s = "" ↔ isBlank s = true := by
  unfold jsTrim isBlank
  rw [← trimChars_eq_nil_iff]
  constructor
  · intro h
    by_contra hne
    exact (mk_ne_empty_iff _).mpr hne h
  · intro h
    rw [h]

/-- The lines the code computes from the trimmed field are the lines of the field in
the specification's words. -/
theorem jsonLines_jsTrim (s : String) : jsonLines (jsTrim s) = fieldLines s := by
  have ht : (jsTrim s).toList = trimChars s.toList := rfl
  unfold jsonLines splitNewlines fieldLines
  rw [trimmed_lines_of_pieces, trimmed_lines_of_pieces, ht,
    trimmedPieces_splitNewlines_trimChars]

theorem fieldLines_ne_nil (s : String) (h : isBlank s = false) : fieldLines s ≠ [] := by
  unfold fieldLines
  rw [trimmed_lines_of_pieces]
  intro hnil
  exact trimmedPieces_split_ne_nil s.toList h (List.map_eq_nil_iff.mp hnil)

theorem fieldLines_entries (s : String) : ∀ l ∈ fieldLines s, l ≠ "" := by
  intro l hl
  unfold fieldLines at hl
  rw [List.mem_filter] at hl
  simpa using hl.2

/-- C21. With JSON-eval on, `json_paths` is present in the built request if and only if
the JSON paths field contains a character that is not white space; when present it is
the sequence, in order, of the newline-separated lines of the field, each trimmed, the
blank ones removed: it is not empty and no entry is empty. A paths field that is empty
or white space only leaves `json_paths` out and the request is rejected by
`validateConfig`. -/
theorem json_paths_are_the_lines_of_the_field (B : Builtins) (lang : String)
    (f : FormState) (hon : f.jsonEvalSwitch = true) :
    ((getFormConfig B f).json_paths.isSome = true ↔ isBlank f.jsonPaths = false) ∧
    (isBlank f.jsonPaths = false →
      (getFormConfig B f).json_paths = some (fieldLines f.jsonPaths) ∧
      fieldLines f.jsonPaths ≠ [] ∧ ∀ l ∈ fieldLines f.jsonPaths, l ≠ "") ∧
    (isBlank f.jsonPaths = true →
      (getFormConfig B f).json_paths = none ∧
      ∃ msg, validateConfig lang (getFormConfig B f) = .error msg) := by
  have hpresent : isBlank f.jsonPaths = false →
      (getFormConfig B f).json_paths = some (fieldLines f.jsonPaths) := by
    intro hb
    have hne : jsTrim f.jsonPaths ≠ "" := by
      intro he
      rw [(jsTrim_eq_empty_iff _).mp he] at hb
      cases hb
    rw [getFormConfig_json_paths, if_pos hon, if_pos hne, jsonLines_jsTrim]
  have habsent : isBlank f.jsonPaths = true → (getFormConfig B f).json_paths = none := by
    intro hb
    have he : ¬jsTrim f.jsonPaths ≠ "" := not_not.mpr ((jsTrim_eq_empty_iff _).mpr hb)
    rw [getFormConfig_json_paths, if_pos hon, if_neg he]
  refine ⟨?_, ?_, ?_⟩
  · cases hb : isBlank f.jsonPaths
    · rw [hpresent hb]
      simp
    · rw [habsent hb]
      simp
  · intro hb
    exact ⟨hpresent hb, fieldLines_ne_nil _ hb, fieldLines_entries _⟩
  · intro hb
    refine ⟨habsent hb, ?_⟩
    apply validateConfig_fails_of_check lang _ .needJsonPaths
    have hj : (getFormConfig B f).json_eval = some true := by
      rw [getFormConfig_json_eval, if_pos hon]
    simp only [Rule.check, hj, habsent hb, absentOrEmpty, decide_True, Bool.and_self]

/-- C21, on concrete forms: a field with two paths among blank lines and stray white
space gives the two paths, and a field of white space only is rejected. -/
theorem json_paths_are_the_lines_of_the_field_witness :
    twoPathsForm.jsonPaths = "  A=/tmp/a.json \n\n\tB=/tmp/b.json\r\n " ∧
    (getFormConfig digitsHost twoPathsForm).json_paths =
      some ["A=/tmp/a.json", "B=/tmp/b.json"] ∧
    (blankPathsForm.jsonPaths = " \n\t " ∧
      (getFormConfig digitsHost blankPathsForm).json_paths = none ∧
      ∃ msg, validateConfig "en" (getFormConfig digitsHost blankPathsForm) = .error msg) :=
  ⟨rfl,
   ((json_paths_are_the_lines_of_the_field digitsHost "en" twoPathsForm rfl).2.1
      (by decide)).1,
   rfl,
   (json_paths_are_the_lines_of_the_field digitsHost "en" blankPathsForm rfl).2.2
      (by decide)⟩

end LegalKit
